import Mathlib

/-!
APFS on-disk format: layout of the reference header `apfs.h`.

The reference header declares the persisted structures of the format as C
structs over the fixed-width integer types of `<stdint.h>`, together with the
constants that interpret their fields.  This development embeds those
declarations as Lean data: every C object type becomes its layout descriptor
(`sizeof`, `alignof`), every struct is the list of its member declarations in
source order, and member offsets are computed by the C layout rule (each member
is placed at the next multiple of its alignment; the struct is padded to a
multiple of its own alignment; `packed` drops member alignment to one byte and
`aligned(n)` raises the alignment of the struct).
-/

namespace Apfs

/-! ## C object types -/

/-- Layout descriptor of a C object type: `sizeof` and `alignof`, in bytes. -/
structure CType where
  size : Nat
  align : Nat
deriving DecidableEq, Repr

/-- An array type `T[n]`. -/
def CType.array (t : CType) (n : Nat) : CType := ⟨t.size * n, t.align⟩

/-- How many objects a member declaration declares: `T x;`, `T x[n];` or the
flexible array member `T x[];`. -/
inductive Extent where
  | scalar
  | array (n : Nat)
  | flexible
deriving DecidableEq, Repr

/-- One member declaration of a struct. -/
structure Member where
  name : String
  elem : CType
  extent : Extent
deriving DecidableEq, Repr

/-- Bytes the member contributes to the struct; a flexible array member
contributes none. -/
def Member.size (m : Member) : Nat :=
  match m.extent with
  | .scalar => m.elem.size
  | .array n => m.elem.size * n
  | .flexible => 0

/-- A struct definition: members in source order and the two attributes the
header uses, `packed` and `aligned(n)` (`aligned = 1` when absent). -/
structure Struct where
  members : List Member
  packed : Bool
  aligned : Nat
deriving DecidableEq, Repr

/-- The declaration `T name;`. -/
def fld (t : CType) (name : String) : Member := ⟨name, t, .scalar⟩

/-- The declaration `T name[n];`. -/
def arr (t : CType) (name : String) (n : Nat) : Member := ⟨name, t, .array n⟩

/-- The declaration `T name[];`. -/
def flex (t : CType) (name : String) : Member := ⟨name, t, .flexible⟩

/-- A struct definition without attributes. -/
def struct (ms : List Member) : Struct := ⟨ms, false, 1⟩

/-- Round `off` up to the next multiple of `a`. -/
def alignUp (off a : Nat) : Nat := (off + (a - 1)) / a * a

/-- Alignment a member requires inside a struct. -/
def memberAlign (packed : Bool) (m : Member) : Nat :=
  if packed then 1 else m.elem.align

/-- Place the members one after another starting at byte `off`; the result
lists each member with the offset it received. -/
def place (packed : Bool) : Nat → List Member → List (Member × Nat)
  | _, [] => []
  | off, m :: ms =>
    let o := alignUp off (memberAlign packed m)
    (m, o) :: place packed (o + m.size) ms

/-- The members of a struct with their offsets. -/
def Struct.layout (s : Struct) : List (Member × Nat) := place s.packed 0 s.members

/-- First byte past the last member, before tail padding. -/
def Struct.dataEnd (s : Struct) : Nat :=
  s.layout.foldl (fun _ p => p.2 + p.1.size) 0

/-- The value of `alignof(struct s)`. -/
def Struct.alignof (s : Struct) : Nat :=
  s.members.foldl (fun a m => max a (memberAlign s.packed m)) (max 1 s.aligned)

/-- The value of `sizeof(struct s)`. -/
def Struct.sizeof (s : Struct) : Nat := alignUp s.dataEnd s.alignof

/-- The struct as an object type, as named by `typedef struct s s_t;`. -/
def Struct.toCType (s : Struct) : CType := ⟨s.sizeof, s.alignof⟩

/-- The value of `offsetof(struct s, name)`; `none` when `s` has no such member. -/
def Struct.offsetof (s : Struct) (name : String) : Option Nat :=
  (s.layout.find? (fun p => p.1.name == name)).map (fun p => p.2)

/-- Size in bytes of the member `name` of `s`. -/
def Struct.memberSize (s : Struct) (name : String) : Option Nat :=
  (s.layout.find? (fun p => p.1.name == name)).map (fun p => p.1.size)

/-- Byte range `[lo, hi)` of `s.name[i]`; `none` when `name` is not an array
member of `s` or `i` is outside the declared bound. -/
def Struct.elemRange (s : Struct) (name : String) (i : Nat) : Option (Nat × Nat) :=
  match s.layout.find? (fun p => p.1.name == name) with
  | none => none
  | some (m, o) =>
    let r := (o + m.elem.size * i, o + m.elem.size * i + m.elem.size)
    match m.extent with
    | .scalar => none
    | .array n => if i < n then some r else none
    | .flexible => some r

/-- No padding between consecutive members when placed from byte `off`. -/
def contiguousFrom : Nat → List (Member × Nat) → Bool
  | _, [] => true
  | off, (m, o) :: ps => o == off && contiguousFrom (o + m.size) ps

/-- The struct has no padding at all: the first member is at offset 0, each
member starts where the previous one ends, and there is no tail padding. -/
def Struct.noPadding (s : Struct) : Bool :=
  contiguousFrom 0 s.layout && s.sizeof == s.dataEnd

/-! ## General-purpose types (`apfs.h` lines 1-23) -/

def uint8_t : CType := ⟨1, 1⟩
def uint16_t : CType := ⟨2, 2⟩
def uint32_t : CType := ⟨4, 4⟩
def uint64_t : CType := ⟨8, 8⟩
def int64_t : CType := ⟨8, 8⟩

def paddr_t : CType := int64_t

def prange : Struct := struct [
  fld paddr_t "pr_start_paddr",
  fld uint64_t "pr_block_count"]
def prange_t : CType := prange.toCType

def unsigned_char : CType := ⟨1, 1⟩

def uuid_t : CType := CType.array unsigned_char 16

def oid_t : CType := uint64_t
def xid_t : CType := uint64_t

/-! ## Objects (`apfs.h` lines 25-101) -/

def MAX_CKSUM_SIZE : Nat := 8

def obj_phys : Struct := struct [
  arr uint8_t "o_cksum" MAX_CKSUM_SIZE,
  fld oid_t "o_oid",
  fld xid_t "o_xid",
  fld uint32_t "o_type",
  fld uint32_t "o_subtype"]
def obj_phys_t : CType := obj_phys.toCType

/-- The part of a block that follows the member `name` of the struct the block
starts with. -/
def Struct.bytesAfter {α : Type} (s : Struct) (name : String) (block : List α) :
    Option (List α) :=
  match s.offsetof name, s.memberSize name with
  | some o, some n => some (block.drop (o + n))
  | _, _ => none

def OBJECT_TYPE_MASK : Nat := 0x0000ffff
def OBJECT_TYPE_FLAGS_MASK : Nat := 0xffff0000

def OBJ_STORAGETYPE_MASK : Nat := 0xc0000000
def OBJECT_TYPE_FLAGS_DEFINED_MASK : Nat := 0xf8000000

def OBJ_VIRTUAL : Nat := 0x00000000
def OBJ_EPHEMERAL : Nat := 0x80000000
def OBJ_PHYSICAL : Nat := 0x40000000

def OBJ_NOHEADER : Nat := 0x20000000
def OBJ_ENCRYPTED : Nat := 0x10000000
def OBJ_NONPERSISTENT : Nat := 0x08000000

/-! ## Container (`apfs.h` lines 119-239) -/

def NX_MAX_FILE_SYSTEMS : Nat := 100

def NX_EPH_INFO_COUNT : Nat := 4

/-- The enumerator `NX_NUM_COUNTERS` of `nx_counter_id_t`. -/
def NX_NUM_COUNTERS : Nat := 32

def nx_superblock : Struct := struct [
  fld obj_phys_t "nx_o",
  fld uint32_t "nx_magic",
  fld uint32_t "nx_block_size",
  fld uint64_t "nx_block_count",
  fld uint64_t "nx_features",
  fld uint64_t "nx_readonly_compatible_features",
  fld uint64_t "nx_incompatible_features",
  fld uuid_t "nx_uuid",
  fld oid_t "nx_next_oid",
  fld xid_t "nx_next_xid",
  fld uint32_t "nx_xp_desc_blocks",
  fld uint32_t "nx_xp_data_blocks",
  fld paddr_t "nx_xp_desc_base",
  fld paddr_t "nx_xp_data_base",
  fld uint32_t "nx_xp_desc_next",
  fld uint32_t "nx_xp_data_next",
  fld uint32_t "nx_xp_desc_index",
  fld uint32_t "nx_xp_desc_len",
  fld uint32_t "nx_xp_data_index",
  fld uint32_t "nx_xp_data_len",
  fld oid_t "nx_spaceman_oid",
  fld oid_t "nx_omap_oid",
  fld oid_t "nx_reaper_oid",
  fld uint32_t "nx_test_type",
  fld uint32_t "nx_max_file_systems",
  arr oid_t "nx_fs_oid" NX_MAX_FILE_SYSTEMS,
  arr uint64_t "nx_counters" NX_NUM_COUNTERS,
  fld prange_t "nx_blocked_out_prange",
  fld oid_t "nx_evict_mapping_tree_oid",
  fld uint64_t "nx_flags",
  fld paddr_t "nx_efi_jumpstart",
  fld uuid_t "nx_fusion_uuid",
  fld prange_t "nx_keylocker",
  arr uint64_t "nx_ephemeral_info" NX_EPH_INFO_COUNT,
  fld oid_t "nx_test_oid",
  fld oid_t "nx_fusion_mt_oid",
  fld oid_t "nx_fusion_wbc_oid",
  fld prange_t "nx_fusion_wbc",
  fld uint64_t "nx_newest_mounted_version",
  fld prange_t "nx_mkb_locker"]
def nx_superblock_t : CType := nx_superblock.toCType

def NX_MINIMUM_BLOCK_SIZE : Nat := 4096
def NX_DEFAULT_BLOCK_SIZE : Nat := 4096
def NX_MAXIMUM_BLOCK_SIZE : Nat := 65536

def checkpoint_mapping : Struct := struct [
  fld uint32_t "cpm_type",
  fld uint32_t "cpm_subtype",
  fld uint32_t "cpm_size",
  fld uint32_t "cpm_pad",
  fld oid_t "cpm_fs_oid",
  fld oid_t "cpm_oid",
  fld oid_t "cpm_paddr"]
def checkpoint_mapping_t : CType := checkpoint_mapping.toCType

def checkpoint_map_phys : Struct := struct [
  fld obj_phys_t "cpm_o",
  fld uint32_t "cpm_flags",
  fld uint32_t "cpm_count",
  flex checkpoint_mapping_t "cpm_map"]

def CHECKPOINT_MAP_LAST : Nat := 0x00000001

/-! ## Object maps (`apfs.h` lines 242-300) -/

def omap_phys : Struct := struct [
  fld obj_phys_t "om_o",
  fld uint32_t "om_flags",
  fld uint32_t "om_snap_count",
  fld uint32_t "om_tree_type",
  fld uint32_t "om_snapshot_tree_type",
  fld oid_t "om_tree_oid",
  fld oid_t "om_snapshot_tree_oid",
  fld xid_t "om_most_recent_snap",
  fld xid_t "om_pending_revert_min",
  fld xid_t "om_pending_revert_max"]
def omap_phys_t : CType := omap_phys.toCType

/-- The members of `struct omap_phys` that the header declares with type
`oid_t`, in source order: the object ids of the trees an object map refers to
(each comes with a member `..._tree_type` giving the type of that tree). -/
def omap_phys_tree_refs : List String := ["om_tree_oid", "om_snapshot_tree_oid"]

def omap_key : Struct := struct [
  fld oid_t "ok_oid",
  fld xid_t "ok_xid"]
def omap_key_t : CType := omap_key.toCType

def omap_val : Struct := struct [
  fld uint32_t "ov_flags",
  fld uint32_t "ov_size",
  fld paddr_t "ov_paddr"]
def omap_val_t : CType := omap_val.toCType

def OMAP_VAL_DELETED : Nat := 0x00000001
def OMAP_VAL_SAVED : Nat := 0x00000002
def OMAP_VAL_ENCRYPTED : Nat := 0x00000004
def OMAP_VAL_NOHEADER : Nat := 0x00000008
def OMAP_VAL_CRYPTO_GENERATION : Nat := 0x00000010

/-! ## B-trees (`apfs.h` lines 949-1034) -/

def nloc : Struct := struct [
  fld uint16_t "off",
  fld uint16_t "len"]
def nloc_t : CType := nloc.toCType

def btree_node_phys : Struct := struct [
  fld obj_phys_t "btn_o",
  fld uint16_t "btn_flags",
  fld uint16_t "btn_level",
  fld uint32_t "btn_nkeys",
  fld nloc_t "btn_table_space",
  fld nloc_t "btn_free_space",
  fld nloc_t "btn_key_free_list",
  fld nloc_t "btn_val_free_list",
  flex uint64_t "btn_data"]
def btree_node_phys_t : CType := btree_node_phys.toCType

def kvloc : Struct := struct [
  fld nloc_t "k",
  fld nloc_t "v"]
def kvloc_t : CType := kvloc.toCType

def kvoff : Struct := struct [
  fld uint16_t "k",
  fld uint16_t "v"]
def kvoff_t : CType := kvoff.toCType

def BTNODE_ROOT : Nat := 0x0001
def BTNODE_LEAF : Nat := 0x0002

def BTNODE_FIXED_KV_SIZE : Nat := 0x0004
def BTNODE_HASHED : Nat := 0x0008
def BTNODE_NOHEADER : Nat := 0x0010

def BTNODE_CHECK_KOFF_INVAL : Nat := 0x8000

/-- Byte offset of element `i` of an array of `t` that starts at byte `base`:
the address computation of `&a[i]`. -/
def elemOffset (t : CType) (base i : Nat) : Nat := base + t.size * i

/-! ## Multi-character constants -/

/-- Value of a multi-character constant such as `'BSXN'`: the characters are
packed big-endian, the first character in the most significant byte. -/
def multichar (cs : List Char) : Nat := cs.foldl (fun acc c => acc * 256 + c.toNat) 0

/-- The four bytes of a 32-bit field as stored on disk, least significant first. -/
def le32 (v : Nat) : List Nat :=
  [v % 256, v / 256 % 256, v / 65536 % 256, v / 16777216 % 256]

/-- The operator `~` on a 64-bit unsigned operand. -/
def not64 (m : Nat) : Nat := 0xffffffffffffffff ^^^ m

/-! ## Object kinds (`apfs.h` lines 48-92) -/

def OBJECT_TYPE_NX_SUPERBLOCK : Nat := 0x00000001

def OBJECT_TYPE_BTREE : Nat := 0x00000002
def OBJECT_TYPE_BTREE_NODE : Nat := 0x00000003

def OBJECT_TYPE_SPACEMAN : Nat := 0x00000005
def OBJECT_TYPE_SPACEMAN_CAB : Nat := 0x00000006
def OBJECT_TYPE_SPACEMAN_CIB : Nat := 0x00000007
def OBJECT_TYPE_SPACEMAN_BITMAP : Nat := 0x00000008
def OBJECT_TYPE_SPACEMAN_FREE_QUEUE : Nat := 0x00000009

def OBJECT_TYPE_EXTENT_LIST_TREE : Nat := 0x0000000a
def OBJECT_TYPE_OMAP : Nat := 0x0000000b
def OBJECT_TYPE_CHECKPOINT_MAP : Nat := 0x0000000c

def OBJECT_TYPE_FS : Nat := 0x0000000d
def OBJECT_TYPE_FSTREE : Nat := 0x0000000e
def OBJECT_TYPE_BLOCKREFTREE : Nat := 0x0000000f
def OBJECT_TYPE_SNAPMETATREE : Nat := 0x00000010

def OBJECT_TYPE_NX_REAPER : Nat := 0x00000011
def OBJECT_TYPE_NX_REAP_LIST : Nat := 0x00000012
def OBJECT_TYPE_OMAP_SNAPSHOT : Nat := 0x00000013
def OBJECT_TYPE_EFI_JUMPSTART : Nat := 0x00000014
def OBJECT_TYPE_FUSION_MIDDLE_TREE : Nat := 0x00000015
def OBJECT_TYPE_NX_FUSION_WBC : Nat := 0x00000016
def OBJECT_TYPE_NX_FUSION_WBC_LIST : Nat := 0x00000017
def OBJECT_TYPE_ER_STATE : Nat := 0x00000018

def OBJECT_TYPE_GBITMAP : Nat := 0x00000019
def OBJECT_TYPE_GBITMAP_TREE : Nat := 0x0000001a
def OBJECT_TYPE_GBITMAP_BLOCK : Nat := 0x0000001b

def OBJECT_TYPE_ER_RECOVERY_BLOCK : Nat := 0x0000001c
def OBJECT_TYPE_SNAP_META_EXT : Nat := 0x0000001d
def OBJECT_TYPE_INTEGRITY_META : Nat := 0x0000001e
def OBJECT_TYPE_FEXT_TREE : Nat := 0x0000001f
def OBJECT_TYPE_RESERVED_20 : Nat := 0x00000020

def OBJECT_TYPE_INVALID : Nat := 0x00000000
def OBJECT_TYPE_TEST : Nat := 0x000000ff

def OBJECT_TYPE_CONTAINER_KEYBAG : Nat := multichar ['k', 'e', 'y', 's']
def OBJECT_TYPE_VOLUME_KEYBAG : Nat := multichar ['r', 'e', 'c', 's']
def OBJECT_TYPE_MEDIA_KEYBAG : Nat := multichar ['m', 'k', 'e', 'y']

/-- The object kinds the header defines by a numeric literal, in source order. -/
def numericObjectTypes : List Nat := [
  OBJECT_TYPE_NX_SUPERBLOCK, OBJECT_TYPE_BTREE, OBJECT_TYPE_BTREE_NODE,
  OBJECT_TYPE_SPACEMAN, OBJECT_TYPE_SPACEMAN_CAB, OBJECT_TYPE_SPACEMAN_CIB,
  OBJECT_TYPE_SPACEMAN_BITMAP, OBJECT_TYPE_SPACEMAN_FREE_QUEUE,
  OBJECT_TYPE_EXTENT_LIST_TREE, OBJECT_TYPE_OMAP, OBJECT_TYPE_CHECKPOINT_MAP,
  OBJECT_TYPE_FS, OBJECT_TYPE_FSTREE, OBJECT_TYPE_BLOCKREFTREE,
  OBJECT_TYPE_SNAPMETATREE, OBJECT_TYPE_NX_REAPER, OBJECT_TYPE_NX_REAP_LIST,
  OBJECT_TYPE_OMAP_SNAPSHOT, OBJECT_TYPE_EFI_JUMPSTART, OBJECT_TYPE_FUSION_MIDDLE_TREE,
  OBJECT_TYPE_NX_FUSION_WBC, OBJECT_TYPE_NX_FUSION_WBC_LIST, OBJECT_TYPE_ER_STATE,
  OBJECT_TYPE_GBITMAP, OBJECT_TYPE_GBITMAP_TREE, OBJECT_TYPE_GBITMAP_BLOCK,
  OBJECT_TYPE_ER_RECOVERY_BLOCK, OBJECT_TYPE_SNAP_META_EXT, OBJECT_TYPE_INTEGRITY_META,
  OBJECT_TYPE_FEXT_TREE, OBJECT_TYPE_RESERVED_20, OBJECT_TYPE_INVALID, OBJECT_TYPE_TEST]

/-- The object kinds the header defines by a four-character constant. -/
def keybagObjectTypes : List Nat := [
  OBJECT_TYPE_CONTAINER_KEYBAG, OBJECT_TYPE_VOLUME_KEYBAG, OBJECT_TYPE_MEDIA_KEYBAG]

/-- Every `OBJECT_TYPE_*` constant of the header, the two masks excepted. -/
def objectTypes : List Nat := numericObjectTypes ++ keybagObjectTypes

/-- The three named storage classes. -/
def storageClasses : List Nat := [OBJ_VIRTUAL, OBJ_EPHEMERAL, OBJ_PHYSICAL]

/-! ## Magic numbers and feature flags (`apfs.h` lines 123, 204-207, 339, 474-488) -/

def NX_MAGIC : Nat := multichar ['B', 'S', 'X', 'N']
def APFS_MAGIC : Nat := multichar ['B', 'S', 'P', 'A']

def NX_INCOMPAT_VERSION1 : Nat := 0x0000000000000001
def NX_INCOMPAT_VERSION2 : Nat := 0x0000000000000002
def NX_INCOMPAT_FUSION : Nat := 0x0000000000000100
def NX_SUPPORTED_INCOMPAT_MASK : Nat := NX_INCOMPAT_VERSION2 ||| NX_INCOMPAT_FUSION

def APFS_INCOMPAT_CASE_INSENSITIVE : Nat := 0x00000001
def APFS_INCOMPAT_DATALESS_SNAPS : Nat := 0x00000002
def APFS_INCOMPAT_ENC_ROLLED : Nat := 0x00000004
def APFS_INCOMPAT_NORMALIZATION_INSENSITIVE : Nat := 0x00000008
def APFS_INCOMPAT_INCOMPLETE_RESTORE : Nat := 0x00000010
def APFS_INCOMPAT_SEALED_VOLUME : Nat := 0x00000020
def APFS_INCOMPAT_RESERVED_40 : Nat := 0x00000040

def APFS_SUPPORTED_INCOMPAT_MASK : Nat :=
  APFS_INCOMPAT_CASE_INSENSITIVE
    ||| APFS_INCOMPAT_DATALESS_SNAPS
    ||| APFS_INCOMPAT_ENC_ROLLED
    ||| APFS_INCOMPAT_NORMALIZATION_INSENSITIVE
    ||| APFS_INCOMPAT_INCOMPLETE_RESTORE
    ||| APFS_INCOMPAT_SEALED_VOLUME
    ||| APFS_INCOMPAT_RESERVED_40

/-! ## Volumes (`apfs.h` lines 309-414) -/

def cp_key_class_t : CType := uint32_t
def cp_key_os_version_t : CType := uint32_t
def cp_key_revision_t : CType := uint16_t
def crypto_flags_t : CType := uint32_t

def wrapped_meta_crypto_state : Struct := ⟨[
  fld uint16_t "major_version",
  fld uint16_t "minor_version",
  fld crypto_flags_t "cpflags",
  fld cp_key_class_t "persistent_class",
  fld cp_key_os_version_t "key_os_version",
  fld cp_key_revision_t "key_revision",
  fld uint16_t "unused"], true, 2⟩
def wrapped_meta_crypto_state_t : CType := wrapped_meta_crypto_state.toCType

def APFS_MODIFIED_NAMELEN : Nat := 32

def apfs_modified_by : Struct := struct [
  arr uint8_t "id" APFS_MODIFIED_NAMELEN,
  fld uint64_t "timestamp",
  fld xid_t "last_xid"]
def apfs_modified_by_t : CType := apfs_modified_by.toCType

def APFS_MAX_HIST : Nat := 8
def APFS_VOLNAME_LEN : Nat := 256

def apfs_superblock : Struct := struct [
  fld obj_phys_t "apfs_o",
  fld uint32_t "apfs_magic",
  fld uint32_t "apfs_fs_index",
  fld uint64_t "apfs_features",
  fld uint64_t "apfs_readonly_compatible_features",
  fld uint64_t "apfs_incompatible_features",
  fld uint64_t "apfs_unmount_time",
  fld uint64_t "apfs_fs_reserve_block_count",
  fld uint64_t "apfs_fs_quota_block_count",
  fld uint64_t "apfs_fs_alloc_count",
  fld wrapped_meta_crypto_state_t "apfs_meta_crypto",
  fld uint32_t "apfs_root_tree_type",
  fld uint32_t "apfs_extentref_tree_type",
  fld uint32_t "apfs_snap_meta_tree_type",
  fld oid_t "apfs_omap_oid",
  fld oid_t "apfs_root_tree_oid",
  fld oid_t "apfs_extentref_tree_oid",
  fld oid_t "apfs_snap_meta_tree_oid",
  fld xid_t "apfs_revert_to_xid",
  fld oid_t "apfs_revert_to_sblock_oid",
  fld uint64_t "apfs_next_obj_id",
  fld uint64_t "apfs_num_files",
  fld uint64_t "apfs_num_directories",
  fld uint64_t "apfs_num_symlinks",
  fld uint64_t "apfs_num_other_fsobjects",
  fld uint64_t "apfs_num_snapshots",
  fld uint64_t "apfs_total_blocks_alloced",
  fld uint64_t "apfs_total_blocks_freed",
  fld uuid_t "apfs_vol_uuid",
  fld uint64_t "apfs_last_mod_time",
  fld uint64_t "apfs_fs_flags",
  fld apfs_modified_by_t "apfs_formatted_by",
  arr apfs_modified_by_t "apfs_modified_by" APFS_MAX_HIST,
  arr uint8_t "apfs_volname" APFS_VOLNAME_LEN,
  fld uint32_t "apfs_next_doc_id",
  fld uint16_t "apfs_role",
  fld uint16_t "reserved",
  fld xid_t "apfs_root_to_xid",
  fld oid_t "apfs_er_state_oid",
  fld uint64_t "apfs_cloneinfo_id_epoch",
  fld uint64_t "apfs_cloneinfo_xid",
  fld oid_t "apfs_snap_meta_ext_oid",
  fld uuid_t "apfs_volume_group_id",
  fld oid_t "apfs_integrity_meta_oid",
  fld oid_t "apfs_fext_tree_oid",
  fld uint32_t "apfs_fext_tree_type",
  fld uint32_t "reserved_type",
  fld oid_t "reserved_oid"]

/-! ## Index-node values and hash sizes (`apfs.h` lines 987-995, 1159-1164) -/

def BTREE_NODE_HASH_SIZE_MAX : Nat := 64

def btn_index_node_val : Struct := struct [
  fld oid_t "binv_child_oid",
  arr uint8_t "binv_child_hash" BTREE_NODE_HASH_SIZE_MAX]
def btn_index_node_val_t : CType := btn_index_node_val.toCType

def APFS_HASH_CCSHA256_SIZE : Nat := 32
def APFS_HASH_CCSHA512_256_SIZE : Nat := 32
def APFS_HASH_CCSHA384_SIZE : Nat := 48
def APFS_HASH_CCSHA512_SIZE : Nat := 64

def APFS_HASH_MAX_SIZE : Nat := 64

/-! ## Storage of file-system record keys (`apfs.h` lines 494-501, 571-580, 622-643) -/

def j_key : Struct := ⟨[
  fld uint64_t "obj_id_and_type"], true, 1⟩
def j_key_t : CType := j_key.toCType

def OBJ_ID_MASK : Nat := 0x0fffffffffffffff
def OBJ_TYPE_MASK : Nat := 0xf000000000000000
def OBJ_TYPE_SHIFT : Nat := 60

def j_drec_hashed_key : Struct := ⟨[
  fld j_key_t "hdr",
  fld uint32_t "name_len_and_hash",
  arr uint8_t "name" 0], true, 1⟩
def j_drec_hashed_key_t : CType := j_drec_hashed_key.toCType

def J_DREC_LEN_MASK : Nat := 0x000003ff
def J_DREC_HASH_MASK : Nat := 0xfffff400
def J_DREC_HASH_SHIFT : Nat := 10

def APFS_TYPE_ANY : Nat := 0
def APFS_TYPE_SNAP_METADATA : Nat := 1
def APFS_TYPE_EXTENT : Nat := 2
def APFS_TYPE_INODE : Nat := 3
def APFS_TYPE_XATTR : Nat := 4
def APFS_TYPE_SIBLING_LINK : Nat := 5
def APFS_TYPE_DSTREAM_ID : Nat := 6
def APFS_TYPE_CRYPTO_STATE : Nat := 7
def APFS_TYPE_FILE_EXTENT : Nat := 8
def APFS_TYPE_DIR_REC : Nat := 9
def APFS_TYPE_DIR_STATS : Nat := 10
def APFS_TYPE_SNAP_NAME : Nat := 11
def APFS_TYPE_SIBLING_MAP : Nat := 12
def APFS_TYPE_FILE_INFO : Nat := 13
def APFS_TYPE_MAX_VALID : Nat := 13
def APFS_TYPE_MAX : Nat := 15
def APFS_TYPE_INVALID : Nat := 15

/-- The enumerators of `j_obj_types`, in source order. -/
def j_obj_types : List Nat := [
  APFS_TYPE_ANY, APFS_TYPE_SNAP_METADATA, APFS_TYPE_EXTENT, APFS_TYPE_INODE,
  APFS_TYPE_XATTR, APFS_TYPE_SIBLING_LINK, APFS_TYPE_DSTREAM_ID, APFS_TYPE_CRYPTO_STATE,
  APFS_TYPE_FILE_EXTENT, APFS_TYPE_DIR_REC, APFS_TYPE_DIR_STATS, APFS_TYPE_SNAP_NAME,
  APFS_TYPE_SIBLING_MAP, APFS_TYPE_FILE_INFO, APFS_TYPE_MAX_VALID, APFS_TYPE_MAX,
  APFS_TYPE_INVALID]

/-! ## Fusion block addresses (`apfs.h` lines 1585-1591) -/

/-- Trailing zero bits of `x`, looking at no more than `fuel` bits. -/
def ctzAux : Nat → Nat → Nat
  | 0, _ => 0
  | fuel + 1, x => if x % 2 = 1 then 0 else 1 + ctzAux fuel (x / 2)

/-- The builtin `__builtin_ctzl` on a 64-bit `unsigned long`: the number of
trailing zero bits of the argument.  The builtin leaves the result for 0
undefined; this function gives 64 there. -/
def ctzl (x : Nat) : Nat := ctzAux 64 (x % 2 ^ 64)

def FUSION_TIER2_DEVICE_BYTE_ADDR : Nat := 0x4000000000000000

def FUSION_TIER2_DEVICE_BLOCK_ADDR (blksize : Nat) : Nat :=
  FUSION_TIER2_DEVICE_BYTE_ADDR >>> ctzl blksize

def FUSION_BLKNO (fusion_tier2 : Bool) (blkno blksize : Nat) : Nat :=
  if fusion_tier2 then FUSION_TIER2_DEVICE_BLOCK_ADDR blksize ||| blkno else blkno

/-! ## Struct tags and their typedef names -/

/-- A union type: its members overlap at offset 0. -/
def CType.union (ts : List CType) : CType :=
  ⟨alignUp (ts.foldl (fun n t => max n t.size) 0) (ts.foldl (fun a t => max a t.align) 1),
   ts.foldl (fun a t => max a t.align) 1⟩

def j_inode_key : Struct := ⟨[
  fld j_key_t "hdr"], true, 1⟩

def j_file_info_key : Struct := ⟨[
  fld j_key_t "hdr",
  fld uint64_t "info_and_lba"], true, 1⟩

def j_file_data_hash_val : Struct := ⟨[
  fld uint16_t "hashed_len",
  fld uint8_t "hash_size",
  arr uint8_t "hash" 0], true, 1⟩
def j_file_data_hash_val_t : CType := j_file_data_hash_val.toCType

/-- The only member is an anonymous union with the single member `dhash`, which
is therefore a member of the struct itself. -/
def j_file_info_val : Struct := ⟨[
  fld (CType.union [j_file_data_hash_val_t]) "dhash"], true, 1⟩

def er_state_phys_header : Struct := struct [
  fld obj_phys_t "ersb_o",
  fld uint32_t "ersb_magic",
  fld uint32_t "ersb_version"]
def er_state_phys_header_t : CType := er_state_phys_header.toCType

def er_state_phys : Struct := struct [
  fld er_state_phys_header_t "ersb_header",
  fld uint64_t "ersb_flags",
  fld uint64_t "ersb_snap_xid",
  fld uint64_t "ersb_current_fext_obj_id",
  fld uint64_t "ersb_file_offset",
  fld uint64_t "ersb_progress",
  fld uint64_t "ersb_total_blk_to_encrypt",
  fld oid_t "ersb_blockmap_oid",
  fld uint64_t "ersb_tidemark_obj_id",
  fld uint64_t "ersb_recovery_extents_count",
  fld oid_t "ersb_recovery_list_oid",
  fld uint64_t "ersb_recovery_length"]
def er_state_phys_t : CType := er_state_phys.toCType

def er_state_phys_v1 : Struct := struct [
  fld er_state_phys_header_t "ersb_header",
  fld uint64_t "ersb_flags",
  fld uint64_t "ersb_snap_xid",
  fld uint64_t "ersb_current_fext_obj_id",
  fld uint64_t "ersb_file_offset",
  fld uint64_t "ersb_fext_pbn",
  fld uint64_t "ersb_paddr",
  fld uint64_t "ersb_progress",
  fld uint64_t "ersb_total_blk_to_encrypt",
  fld uint64_t "ersb_blockmap_oid",
  fld uint32_t "ersb_checksum_count",
  fld uint32_t "ersb_reserved",
  fld uint64_t "ersb_fext_cid",
  arr uint8_t "ersb_checksum" 0]

/-- Every struct tag the header defines (`struct tag { ... }`), in source order. -/
def structTags : List String := [
  "prange", "obj_phys", "nx_efi_jumpstart", "nx_superblock", "checkpoint_mapping",
  "checkpoint_map_phys", "evict_mapping_val", "omap_phys", "omap_key", "omap_val",
  "omap_snapshot", "wrapped_meta_crypto_state", "apfs_modified_by", "apfs_superblock", "j_key",
  "j_inode_key", "j_inode_val", "j_drec_key", "j_drec_hashed_key", "j_drec_val",
  "j_dir_stats_key", "j_dir_stats_val", "j_xattr_key", "j_xattr_val", "j_phys_ext_key",
  "j_phys_ext_val", "j_file_extent_key", "j_file_extent_val", "j_dstream_id_key",
  "j_dstream_id_val", "j_dstream", "j_xattr_dstream", "xf_blob", "x_field", "j_sibling_key",
  "j_sibling_val", "j_sibling_map_key", "j_sibling_map_val", "j_snap_metadata_key",
  "j_snap_metadata_val", "j_snap_name_key", "j_snap_name_val", "snap_meta_ext",
  "snap_meta_ext_obj_phys", "nloc", "btree_node_phys", "btree_info_fixed", "btree_info",
  "btn_index_node_val", "kvloc", "kvoff", "j_crypto_key", "wrapped_crypto_state",
  "j_crypto_val", "keybag_entry", "kb_locker", "media_keybag", "integrity_meta_phys",
  "fext_tree_key", "fext_tree_val", "j_file_info_key", "j_file_data_hash_val",
  "j_file_info_val", "chunk_info", "chunk_info_block", "cib_addr_block",
  "spaceman_free_queue_key", "spaceman_free_queue_entry", "spaceman_free_queue",
  "spaceman_device", "spaceman_allocation_zone_boundaries",
  "spaceman_allocation_zone_info_phys", "spaceman_datazone_info_phys", "spaceman_phys",
  "nx_reaper_phys", "nx_reap_list_entry", "nx_reap_list_phys", "omap_reap_state",
  "omap_cleanup_state", "apfs_reap_state", "er_state_phys_header", "er_state_phys",
  "er_state_phys_v1", "er_recovery_block_phys", "gbitmap_block_phys", "gbitmap_phys"]

/-- A declaration `typedef struct tag name;` of the header, with the tag of the
struct defined directly above it. -/
structure StructTypedef where
  above : String
  tag : String
  name : String
deriving DecidableEq, Repr

/-- Every declaration `typedef struct tag name;` of the header, in source order;
each one directly follows a struct definition. -/
def structTypedefs : List StructTypedef := [
  StructTypedef.mk "prange" "prange" "prange_t",
  StructTypedef.mk "obj_phys" "obj_phys" "obj_phys_t",
  StructTypedef.mk "nx_efi_jumpstart" "nx_efi_jumpstart" "nx_efi_jumpstart_t",
  StructTypedef.mk "nx_superblock" "nx_superblock" "nx_superblock_t",
  StructTypedef.mk "checkpoint_mapping" "checkpoint_mapping" "checkpoint_mapping_t",
  StructTypedef.mk "evict_mapping_val" "evict_mapping_val" "evict_mapping_val_t",
  StructTypedef.mk "omap_phys" "omap_phys" "omap_phys_t",
  StructTypedef.mk "omap_key" "omap_key" "omap_key_t",
  StructTypedef.mk "omap_val" "omap_val" "omap_val_t",
  StructTypedef.mk "omap_snapshot" "omap_snapshot" "omap_snapshot_t",
  StructTypedef.mk "wrapped_meta_crypto_state" "wrapped_meta_crypto_state" "wrapped_meta_crypto_state_t",
  StructTypedef.mk "apfs_modified_by" "apfs_modified_by" "apfs_modified_by_t",
  StructTypedef.mk "j_key" "j_key" "j_key_t",
  StructTypedef.mk "j_inode_key" "j_inode_key_t" "j_inode_key_t",
  StructTypedef.mk "j_inode_val" "j_inode_val" "j_inode_val_t",
  StructTypedef.mk "j_drec_key" "j_drec_key" "j_drec_key_t",
  StructTypedef.mk "j_drec_hashed_key" "j_drec_hashed_key" "j_drec_hashed_key_t",
  StructTypedef.mk "j_drec_val" "j_drec_val" "j_drec_val_t",
  StructTypedef.mk "j_dir_stats_key" "j_dir_stats_key" "j_dir_stats_key_t",
  StructTypedef.mk "j_dir_stats_val" "j_dir_stats_val" "j_dir_stats_val_t",
  StructTypedef.mk "j_xattr_key" "j_xattr_key" "j_xattr_key_t",
  StructTypedef.mk "j_xattr_val" "j_xattr_val" "j_xattr_val_t",
  StructTypedef.mk "j_phys_ext_key" "j_phys_ext_key" "j_phys_ext_key_t",
  StructTypedef.mk "j_phys_ext_val" "j_phys_ext_val" "j_phys_ext_val_t",
  StructTypedef.mk "j_file_extent_key" "j_file_extent_key" "j_file_extent_key_t",
  StructTypedef.mk "j_file_extent_val" "j_file_extent_val" "j_file_extent_val_t",
  StructTypedef.mk "j_dstream_id_key" "j_dstream_id_key" "j_dstream_id_key_t",
  StructTypedef.mk "j_dstream_id_val" "j_dstream_id_val" "j_dstream_id_val_t",
  StructTypedef.mk "j_dstream" "j_dstream" "j_dstream_t",
  StructTypedef.mk "j_xattr_dstream" "j_xattr_dstream" "j_xattr_dstream_t",
  StructTypedef.mk "xf_blob" "xf_blob" "xf_blob_t",
  StructTypedef.mk "x_field" "x_field" "x_field_t",
  StructTypedef.mk "j_sibling_key" "j_sibling_key" "j_sibling_key_t",
  StructTypedef.mk "j_sibling_val" "j_sibling_val" "j_sibling_val_t",
  StructTypedef.mk "j_sibling_map_key" "j_sibling_map_key" "j_sibling_map_key_t",
  StructTypedef.mk "j_sibling_map_val" "j_sibling_map_val" "j_sibling_map_val_t",
  StructTypedef.mk "j_snap_metadata_key" "j_snap_metadata_key" "j_snap_metadata_key_t",
  StructTypedef.mk "j_snap_metadata_val" "j_snap_metadata_val" "j_snap_metadata_val_t",
  StructTypedef.mk "j_snap_name_key" "j_snap_name_key" "j_snap_name_key_t",
  StructTypedef.mk "j_snap_name_val" "j_snap_name_val" "j_snap_name_val_t",
  StructTypedef.mk "snap_meta_ext" "snap_meta_ext" "snap_meta_ext_t",
  StructTypedef.mk "snap_meta_ext_obj_phys" "snap_meta_ext_obj_phys" "snap_meta_ext_obj_phys_t",
  StructTypedef.mk "nloc" "nloc" "nloc_t",
  StructTypedef.mk "btree_node_phys" "btree_node_phys" "btree_node_phys_t",
  StructTypedef.mk "btree_info_fixed" "btree_info_fixed" "btree_info_fixed_t",
  StructTypedef.mk "btree_info" "btree_info" "btree_info_t",
  StructTypedef.mk "btn_index_node_val" "btn_index_node_val" "btn_index_node_val_t",
  StructTypedef.mk "kvloc" "kvloc" "kvloc_t",
  StructTypedef.mk "kvoff" "kvoff" "kvoff_t",
  StructTypedef.mk "j_crypto_key" "j_crypto_key" "j_crypto_key_t",
  StructTypedef.mk "wrapped_crypto_state" "wrapped_crypto_state" "wrapped_crypto_state_t",
  StructTypedef.mk "j_crypto_val" "j_crypto_val" "j_crypto_val_t",
  StructTypedef.mk "keybag_entry" "keybag_entry" "keybag_entry_t",
  StructTypedef.mk "kb_locker" "kb_locker" "kb_locker_t",
  StructTypedef.mk "media_keybag" "media_keybag" "media_keybag_t",
  StructTypedef.mk "integrity_meta_phys" "integrity_meta_phys" "integrity_meta_phys_t",
  StructTypedef.mk "fext_tree_key" "fext_tree_key" "fext_tree_key_t",
  StructTypedef.mk "fext_tree_val" "fext_tree_val" "fext_tree_val_t",
  StructTypedef.mk "j_file_info_key" "j_key_t" "j_file_info_key_t",
  StructTypedef.mk "j_file_data_hash_val" "j_file_data_hash_val" "j_file_data_hash_val_t",
  StructTypedef.mk "j_file_info_val" "j_file_data_hash_val_t" "j_file_info_val_t",
  StructTypedef.mk "chunk_info" "chunk_info" "chunk_info_t",
  StructTypedef.mk "chunk_info_block" "chunk_info_block" "chunk_info_block_t",
  StructTypedef.mk "cib_addr_block" "cib_addr_block" "cib_addr_block_t",
  StructTypedef.mk "spaceman_free_queue_key" "spaceman_free_queue_key" "spaceman_free_queue_key_t",
  StructTypedef.mk "spaceman_free_queue_entry" "spaceman_free_queue_entry" "spaceman_free_queue_entry_t",
  StructTypedef.mk "spaceman_free_queue" "spaceman_free_queue" "spaceman_free_queue_t",
  StructTypedef.mk "spaceman_device" "spaceman_device" "spaceman_device_t",
  StructTypedef.mk "spaceman_allocation_zone_boundaries" "spaceman_allocation_zone_boundaries" "spaceman_allocation_zone_boundaries_t",
  StructTypedef.mk "spaceman_allocation_zone_info_phys" "spaceman_allocation_zone_info_phys" "spaceman_allocation_zone_info_phys_t",
  StructTypedef.mk "spaceman_datazone_info_phys" "spaceman_datazone_info_phys" "spaceman_datazone_info_phys_t",
  StructTypedef.mk "spaceman_phys" "spaceman_phys" "spaceman_phys_t",
  StructTypedef.mk "nx_reaper_phys" "nx_reaper_phys" "nx_reaper_phys_t",
  StructTypedef.mk "nx_reap_list_entry" "nx_reap_list_entry" "nx_reap_list_entry_t",
  StructTypedef.mk "nx_reap_list_phys" "nx_reap_list_phys" "nx_reap_list_phys_t",
  StructTypedef.mk "omap_reap_state" "omap_reap_state" "omap_reap_state_t",
  StructTypedef.mk "omap_cleanup_state" "omap_cleanup_state" "omap_cleanup_state_t",
  StructTypedef.mk "apfs_reap_state" "apfs_reap_state" "apfs_reap_state_t",
  StructTypedef.mk "er_state_phys_header" "er_state_phys_header" "er_state_phys_header_t",
  StructTypedef.mk "er_state_phys" "er_state_phys" "er_state_phys_t",
  StructTypedef.mk "er_state_phys_v1" "er_state_phys" "er_state_phys_v1_t",
  StructTypedef.mk "er_recovery_block_phys" "er_recovery_block_phys" "er_recovery_block_phys_t",
  StructTypedef.mk "gbitmap_block_phys" "gbitmap_block_phys" "gbitmap_block_phys_t",
  StructTypedef.mk "gbitmap_phys" "gbitmap_phys" "gbitmap_phys_t"]

/-- The struct tag a typedef name of the header stands for: the tag its
declaration names when the header defines a struct with that tag; otherwise the
name is an incomplete type, without members or size. -/
def typedefTarget (name : String) : Option String :=
  match structTypedefs.find? (fun d => d.name == name) with
  | some d => if structTags.contains d.tag then some d.tag else none
  | none => none

/-! ## Auxiliary facts about bit masks -/

set_option maxRecDepth 100000

theorem testBit_of_lt_two_pow {t n i : Nat} (ht : t < 2 ^ n) (hi : n ≤ i) :
    t.testBit i = false :=
  Nat.testBit_lt_two_pow (Nat.lt_of_lt_of_le ht (Nat.pow_le_pow_right (by decide) hi))

theorem testBit_low16 (i : Nat) : (0x0000ffff : Nat).testBit i = decide (i < 16) := by
  have h : (0x0000ffff : Nat) = 2 ^ 16 - 1 := by decide
  rw [h, Nat.testBit_two_pow_sub_one]

theorem testBit_high16 (i : Nat) :
    (0xffff0000 : Nat).testBit i = (decide (16 ≤ i) && decide (i < 32)) := by
  have h : (0xffff0000 : Nat) = (2 ^ 16 - 1) <<< 16 := by decide
  rw [h, Nat.testBit_shiftLeft, Nat.testBit_two_pow_sub_one]
  by_cases h16 : 16 ≤ i <;> by_cases h32 : i < 32 <;> simp [h16, h32] <;> omega

/-- A word all of whose bits lie in the high half has no bit below bit 16. -/
theorem testBit_of_and_high16 {m i : Nat} (hm : m &&& 0xffff0000 = m) (hi : i < 16) :
    m.testBit i = false := by
  rw [← hm, Nat.testBit_and, testBit_high16]
  have : ¬ 16 ≤ i := by omega
  simp [this]

/-- Masking with a run of `n` ones that starts at bit `k` keeps exactly the
bits `k .. k + n - 1`. -/
theorem and_shiftLeft_ones (t n k : Nat) :
    t &&& ((2 ^ n - 1) <<< k) = ((t >>> k) % 2 ^ n) <<< k := by
  apply Nat.eq_of_testBit_eq
  intro i
  simp only [Nat.testBit_and, Nat.testBit_shiftLeft, Nat.testBit_two_pow_sub_one,
    Nat.testBit_mod_two_pow, Nat.testBit_shiftRight]
  by_cases hk : k ≤ i
  · have hki : k + (i - k) = i := by omega
    simp [hk, hki, Bool.and_comm]
  · simp [hk]

theorem testBit_not64 (m i : Nat) :
    (not64 m).testBit i = (decide (i < 64) ^^ m.testBit i) := by
  have h : (0xffffffffffffffff : Nat) = 2 ^ 64 - 1 := by decide
  rw [not64, h, Nat.testBit_xor, Nat.testBit_two_pow_sub_one]

theorem testBit_nx_supported_incompat (i : Nat) :
    NX_SUPPORTED_INCOMPAT_MASK.testBit i = (decide (1 = i) || decide (8 = i)) := by
  have h : NX_SUPPORTED_INCOMPAT_MASK = 2 ^ 1 ||| 2 ^ 8 := by decide
  rw [h, Nat.testBit_or, Nat.testBit_two_pow, Nat.testBit_two_pow]

/-- A 64-bit word has no bit outside the container's supported mask exactly
when each of its set bits is bit 1 or bit 8. -/
theorem nx_no_unsupported_iff (f : Nat) (hf : f < 2 ^ 64) :
    f &&& not64 NX_SUPPORTED_INCOMPAT_MASK = 0 ↔
      ∀ i : Nat, f.testBit i = true → i = 1 ∨ i = 8 := by
  constructor
  · intro h i hi
    have hbit : (f &&& not64 NX_SUPPORTED_INCOMPAT_MASK).testBit i = false := by
      rw [h, Nat.zero_testBit]
    rw [Nat.testBit_and, hi, testBit_not64, testBit_nx_supported_incompat] at hbit
    have h64 : i < 64 := by
      by_contra hge
      have := testBit_of_lt_two_pow hf (Nat.le_of_not_lt hge)
      rw [hi] at this
      exact Bool.noConfusion this
    by_cases h1 : 1 = i
    · exact Or.inl h1.symm
    · by_cases h8 : 8 = i
      · exact Or.inr h8.symm
      · simp [h64, h1, h8] at hbit
  · intro h
    apply Nat.eq_of_testBit_eq
    intro i
    rw [Nat.testBit_and, testBit_not64, testBit_nx_supported_incompat, Nat.zero_testBit]
    cases hfi : f.testBit i
    · rfl
    · rcases h i hfi with h1 | h8
      · subst h1; decide
      · subst h8; decide

theorem or_two_pow_of_lt {m b : Nat} (hb : b < 2 ^ m) : 2 ^ m ||| b = 2 ^ m + b := by
  have h := Nat.mul_add_lt_is_or hb 1
  rw [Nat.mul_one] at h
  exact h.symm

theorem and_two_pow_of_lt {m b : Nat} (hb : b < 2 ^ m) : b &&& 2 ^ m = 0 := by
  apply Nat.eq_of_testBit_eq
  intro i
  rw [Nat.testBit_and, Nat.testBit_two_pow, Nat.zero_testBit]
  by_cases h : m = i
  · subst h
    rw [testBit_of_lt_two_pow hb (Nat.le_refl _)]
    rfl
  · simp [h]

theorem or_two_pow_and_ne_zero (m b : Nat) : (2 ^ m ||| b) &&& 2 ^ m ≠ 0 := by
  intro h
  have hbit : ((2 ^ m ||| b) &&& 2 ^ m).testBit m = true := by
    simp [Nat.testBit_and, Nat.testBit_or, Nat.testBit_two_pow_self]
  rw [h, Nat.zero_testBit] at hbit
  exact Bool.noConfusion hbit

/-- Clearing bit `m` of a 64-bit word below `2 ^ m` changes nothing. -/
theorem and_not64_two_pow_of_lt {m b : Nat} (hm : m < 64) (hb : b < 2 ^ m) :
    b &&& not64 (2 ^ m) = b := by
  apply Nat.eq_of_testBit_eq
  intro i
  rw [Nat.testBit_and, testBit_not64, Nat.testBit_two_pow]
  by_cases hi : i < m
  · have h64 : i < 64 := by omega
    have hne : ¬ m = i := by omega
    simp [h64, hne]
  · rw [testBit_of_lt_two_pow hb (Nat.le_of_not_lt hi)]
    rfl

/-- Clearing bit `m` of `2 ^ m | b` gives back `b` when `b` is below `2 ^ m`. -/
theorem or_two_pow_and_not64 {m b : Nat} (hm : m < 64) (hb : b < 2 ^ m) :
    (2 ^ m ||| b) &&& not64 (2 ^ m) = b := by
  apply Nat.eq_of_testBit_eq
  intro i
  rw [Nat.testBit_and, Nat.testBit_or, testBit_not64, Nat.testBit_two_pow]
  by_cases hi : i < m
  · have h64 : i < 64 := by omega
    have hne : ¬ m = i := by omega
    simp [h64, hne]
  · rw [testBit_of_lt_two_pow hb (Nat.le_of_not_lt hi)]
    by_cases hmi : m = i
    · subst hmi
      simp [hm]
    · simp [hmi]

/-- The Fusion block-number encoding when the tier-2 marker is the single bit
`2 ^ m`. -/
theorem fusion_blkno_of_marker {bs m : Nat} (hm : m < 64)
    (hBA : FUSION_TIER2_DEVICE_BLOCK_ADDR bs = 2 ^ m) (blkno : Nat)
    (hb : blkno < FUSION_TIER2_DEVICE_BLOCK_ADDR bs) :
    FUSION_BLKNO false blkno bs = blkno ∧
    FUSION_BLKNO true blkno bs = FUSION_TIER2_DEVICE_BLOCK_ADDR bs + blkno ∧
    ∀ tier : Bool,
      (FUSION_BLKNO tier blkno bs &&& FUSION_TIER2_DEVICE_BLOCK_ADDR bs ≠ 0 ↔ tier = true) ∧
      FUSION_BLKNO tier blkno bs &&& not64 (FUSION_TIER2_DEVICE_BLOCK_ADDR bs) = blkno := by
  rw [hBA] at hb
  refine ⟨rfl, ?_, ?_⟩
  · simp only [FUSION_BLKNO, if_true, hBA]
    exact or_two_pow_of_lt hb
  · intro tier
    cases tier
    · simp only [FUSION_BLKNO, hBA]
      refine ⟨?_, and_not64_two_pow_of_lt hm hb⟩
      simp [and_two_pow_of_lt hb]
    · simp only [FUSION_BLKNO, if_true, hBA]
      refine ⟨?_, or_two_pow_and_not64 hm hb⟩
      simp [or_two_pow_and_ne_zero m blkno]

theorem fusion_block_addr_values :
    FUSION_TIER2_DEVICE_BLOCK_ADDR (2 ^ 12) = 2 ^ 50 ∧
    FUSION_TIER2_DEVICE_BLOCK_ADDR (2 ^ 13) = 2 ^ 49 ∧
    FUSION_TIER2_DEVICE_BLOCK_ADDR (2 ^ 14) = 2 ^ 48 ∧
    FUSION_TIER2_DEVICE_BLOCK_ADDR (2 ^ 15) = 2 ^ 47 ∧
    FUSION_TIER2_DEVICE_BLOCK_ADDR (2 ^ 16) = 2 ^ 46 := by
  and_intros
  all_goals decide

/-- For a legal power-of-two block size the tier-2 marker is a single bit,
`2 ^ (62 - k)`. -/
theorem fusion_block_addr_pow {bs k : Nat} (hk : bs = 2 ^ k)
    (hmin : NX_MINIMUM_BLOCK_SIZE ≤ bs) (hmax : bs ≤ NX_MAXIMUM_BLOCK_SIZE) :
    ∃ m : Nat, m < 64 ∧ FUSION_TIER2_DEVICE_BLOCK_ADDR bs = 2 ^ m ∧ 2 ^ m * bs = 2 ^ 62 := by
  subst hk
  have h12 : 12 ≤ k := by
    have h : 2 ^ 12 ≤ 2 ^ k := hmin
    exact (Nat.pow_le_pow_iff_right (by decide)).mp h
  have h16 : k ≤ 16 := by
    have h : 2 ^ k ≤ 2 ^ 16 := hmax
    exact (Nat.pow_le_pow_iff_right (by decide)).mp h
  obtain ⟨v12, v13, v14, v15, v16⟩ := fusion_block_addr_values
  interval_cases k
  · exact ⟨50, by decide, v12, by decide⟩
  · exact ⟨49, by decide, v13, by decide⟩
  · exact ⟨48, by decide, v14, by decide⟩
  · exact ⟨47, by decide, v15, by decide⟩
  · exact ⟨46, by decide, v16, by decide⟩

/-! ## Auxiliary facts about array members -/

theorem nx_fs_oid_elemRange (i : Nat) :
    nx_superblock.elemRange "nx_fs_oid" i =
      if i < 100 then some (184 + 8 * i, 184 + 8 * i + 8) else none := by
  have hfind : nx_superblock.layout.find? (fun p => p.1.name == "nx_fs_oid") =
      some (arr oid_t "nx_fs_oid" NX_MAX_FILE_SYSTEMS, 184) := by decide
  simp only [Struct.elemRange, hfind]
  rfl

theorem nx_superblock_members_end :
    ∀ p ∈ nx_superblock.layout, p.2 + p.1.size ≤ 1408 := by decide

theorem cpm_map_elemRange (i : Nat) :
    checkpoint_map_phys.elemRange "cpm_map" i = some (40 + 40 * i, 40 + 40 * i + 40) := by
  have hfind : checkpoint_map_phys.layout.find? (fun p => p.1.name == "cpm_map") =
      some (flex checkpoint_mapping_t "cpm_map", 40) := by decide
  simp only [Struct.elemRange, hfind]
  rfl

/-! ## The claims -/

/-- C1: the common object header `obj_phys_t` is exactly 32 bytes with no
padding: `o_cksum` occupies bytes 0..7 (`MAX_CKSUM_SIZE = 8`), `o_oid` is the
64-bit member at offset 8, `o_xid` the 64-bit member at offset 16, `o_type` the
32-bit member at offset 24 and `o_subtype` the 32-bit member at offset 28; hence
a block of at least 32 bytes holds the whole header, and the part following the
checksum member starts at offset 8 and has 8 bytes fewer than the block. -/
theorem obj_phys_layout {α : Type} (block : List α) (hB : 32 ≤ block.length) :
    obj_phys_t.size = 32 ∧ obj_phys.noPadding = true ∧ MAX_CKSUM_SIZE = 8 ∧
    obj_phys.offsetof "o_cksum" = some 0 ∧ obj_phys.memberSize "o_cksum" = some 8 ∧
    obj_phys.offsetof "o_oid" = some 8 ∧ obj_phys.memberSize "o_oid" = some 8 ∧
    obj_phys.offsetof "o_xid" = some 16 ∧ obj_phys.memberSize "o_xid" = some 8 ∧
    obj_phys.offsetof "o_type" = some 24 ∧ obj_phys.memberSize "o_type" = some 4 ∧
    obj_phys.offsetof "o_subtype" = some 28 ∧ obj_phys.memberSize "o_subtype" = some 4 ∧
    obj_phys_t.size ≤ block.length ∧
    obj_phys.bytesAfter "o_cksum" block = some (block.drop 8) ∧
    (block.drop 8).length = block.length - 8 := by
  have hsz : obj_phys_t.size = 32 := by decide
  have hrest : obj_phys.bytesAfter "o_cksum" block = some (block.drop 8) := by
    have ho : obj_phys.offsetof "o_cksum" = some 0 := by decide
    have hn : obj_phys.memberSize "o_cksum" = some 8 := by decide
    simp only [Struct.bytesAfter, ho, hn]
  have hfit : obj_phys_t.size ≤ block.length := by rw [hsz]; exact hB
  and_intros
  all_goals first
    | decide
    | exact hfit
    | exact hrest
    | exact List.length_drop 8 block

/-- Witness for C1: a block of 40 zero bytes. -/
theorem obj_phys_layout_witness :
    32 ≤ (List.replicate 40 (0 : Nat)).length ∧
    obj_phys.bytesAfter "o_cksum" (List.replicate 40 (0 : Nat)) =
      some ((List.replicate 40 (0 : Nat)).drop 8) ∧
    ((List.replicate 40 (0 : Nat)).drop 8).length = (List.replicate 40 (0 : Nat)).length - 8 :=
  have h := obj_phys_layout (List.replicate 40 (0 : Nat)) (by decide)
  ⟨by decide, h.2.2.2.2.2.2.2.2.2.2.2.2.2.2⟩

/-- C2: for every 32-bit `o_type` value `t`, `OBJECT_TYPE_MASK` selects exactly
the low 16 bits and `OBJECT_TYPE_FLAGS_MASK` exactly the high 16 bits; the two
masks are disjoint, their union is `0xffffffff`, and
`t = (t & OBJECT_TYPE_MASK) | (t & OBJECT_TYPE_FLAGS_MASK)`.  Moreover
`OBJ_STORAGETYPE_MASK`, `OBJ_NOHEADER`, `OBJ_ENCRYPTED` and `OBJ_NONPERSISTENT`
lie inside `OBJECT_TYPE_FLAGS_MASK`, and for every word `m` inside
`OBJECT_TYPE_FLAGS_MASK` (these four in particular) the extracted bits `t & m`
contain no object-kind bit, and neither clearing nor setting the bits of `m` in
`t` changes the object kind `t & OBJECT_TYPE_MASK`. -/
theorem object_type_masks (t : Nat) (ht : t < 2 ^ 32) :
    t &&& OBJECT_TYPE_MASK = t % 2 ^ 16 ∧
    t &&& OBJECT_TYPE_FLAGS_MASK = t / 2 ^ 16 * 2 ^ 16 ∧
    OBJECT_TYPE_MASK &&& OBJECT_TYPE_FLAGS_MASK = 0 ∧
    OBJECT_TYPE_MASK ||| OBJECT_TYPE_FLAGS_MASK = 0xffffffff ∧
    t = (t &&& OBJECT_TYPE_MASK) ||| (t &&& OBJECT_TYPE_FLAGS_MASK) ∧
    OBJ_STORAGETYPE_MASK &&& OBJECT_TYPE_FLAGS_MASK = OBJ_STORAGETYPE_MASK ∧
    OBJ_NOHEADER &&& OBJECT_TYPE_FLAGS_MASK = OBJ_NOHEADER ∧
    OBJ_ENCRYPTED &&& OBJECT_TYPE_FLAGS_MASK = OBJ_ENCRYPTED ∧
    OBJ_NONPERSISTENT &&& OBJECT_TYPE_FLAGS_MASK = OBJ_NONPERSISTENT ∧
    ∀ m : Nat, m &&& OBJECT_TYPE_FLAGS_MASK = m →
      (t &&& m) &&& OBJECT_TYPE_MASK = 0 ∧
      (t ^^^ (t &&& m)) &&& OBJECT_TYPE_MASK = t &&& OBJECT_TYPE_MASK ∧
      (t ||| m) &&& OBJECT_TYPE_MASK = t &&& OBJECT_TYPE_MASK := by
  refine ⟨?_, ?_, by decide, by decide, ?_, by decide, by decide, by decide, by decide, ?_⟩
  · exact Nat.and_pow_two_sub_one_eq_mod t 16
  · have h : t / 2 ^ 16 * 2 ^ 16 = (t >>> 16) <<< 16 := by
      rw [Nat.shiftLeft_eq, Nat.shiftRight_eq_div_pow]
    rw [h]
    apply Nat.eq_of_testBit_eq
    intro i
    simp only [OBJECT_TYPE_FLAGS_MASK, Nat.testBit_and, testBit_high16, Nat.testBit_shiftLeft,
      Nat.testBit_shiftRight]
    by_cases h16 : 16 ≤ i
    · by_cases h32 : i < 32
      · have : 16 + (i - 16) = i := by omega
        simp [h16, h32, this]
      · have hf : t.testBit i = false := testBit_of_lt_two_pow ht (by omega)
        have : 16 + (i - 16) = i := by omega
        simp [h32, this, hf]
    · simp [h16]
  · apply Nat.eq_of_testBit_eq
    intro i
    simp only [OBJECT_TYPE_MASK, OBJECT_TYPE_FLAGS_MASK, Nat.testBit_and, Nat.testBit_or,
      testBit_high16, testBit_low16]
    by_cases h16 : i < 16
    · simp [h16]
    · by_cases h32 : i < 32
      · have : 16 ≤ i := by omega
        simp [h16, h32, this]
      · have hf : t.testBit i = false := testBit_of_lt_two_pow ht (by omega)
        simp [hf]
  · intro m hm
    refine ⟨?_, ?_, ?_⟩ <;> apply Nat.eq_of_testBit_eq <;> intro i <;>
      simp only [OBJECT_TYPE_MASK, Nat.testBit_and, Nat.testBit_or, Nat.testBit_xor,
        testBit_low16, Nat.zero_testBit] <;>
      by_cases h16 : i < 16
    all_goals first
      | (have hmi : m.testBit i = false := testBit_of_and_high16 hm h16
         simp [hmi])
      | simp [h16]

/-- Witness for C2: the word `0x4000000b` (a physical object map) and the
storage-class mask. -/
theorem object_type_masks_witness :
    0x4000000b < 2 ^ 32 ∧ 0x4000000b &&& OBJECT_TYPE_MASK = 0x4000000b % 2 ^ 16 ∧
    (0x4000000b &&& OBJ_STORAGETYPE_MASK) &&& OBJECT_TYPE_MASK = 0 :=
  ⟨by decide, (object_type_masks 0x4000000b (by decide)).1,
   ((object_type_masks 0x4000000b (by decide)).2.2.2.2.2.2.2.2.2
      OBJ_STORAGETYPE_MASK (by decide)).1⟩

/-- C3: under natural C alignment `nx_superblock_t` places its bootstrap members
at fixed byte offsets, with no padding anywhere in the struct: `nx_magic` 32,
`nx_block_size` 36, `nx_block_count` 40, `nx_xp_desc_blocks` 104,
`nx_xp_data_blocks` 108, `nx_xp_desc_base` 112, `nx_xp_data_base` 120,
`nx_omap_oid` 160, `nx_max_file_systems` 180 and `nx_fs_oid` 184. -/
theorem nx_superblock_bootstrap_offsets :
    nx_superblock.offsetof "nx_magic" = some 32 ∧
    nx_superblock.offsetof "nx_block_size" = some 36 ∧
    nx_superblock.offsetof "nx_block_count" = some 40 ∧
    nx_superblock.offsetof "nx_xp_desc_blocks" = some 104 ∧
    nx_superblock.offsetof "nx_xp_data_blocks" = some 108 ∧
    nx_superblock.offsetof "nx_xp_desc_base" = some 112 ∧
    nx_superblock.offsetof "nx_xp_data_base" = some 120 ∧
    nx_superblock.offsetof "nx_omap_oid" = some 160 ∧
    nx_superblock.offsetof "nx_max_file_systems" = some 180 ∧
    nx_superblock.offsetof "nx_fs_oid" = some 184 ∧
    nx_superblock.noPadding = true := by
  and_intros
  all_goals decide

/-- C4: the volume-object-id table `nx_fs_oid` has exactly
`NX_MAX_FILE_SYSTEMS = 100` slots of 8 bytes: slot `i` exists exactly when
`i < 100`, and then occupies bytes `[184 + 8*i, 192 + 8*i)` of `nx_superblock_t`;
distinct slots do not overlap; the last slot ends at byte 984, where
`nx_counters` begins. -/
theorem nx_fs_oid_slots (i : Nat) (hi : i < 100) :
    NX_MAX_FILE_SYSTEMS = 100 ∧ oid_t.size = 8 ∧
    (∀ k : Nat, (nx_superblock.elemRange "nx_fs_oid" k).isSome = true ↔ k < 100) ∧
    nx_superblock.elemRange "nx_fs_oid" i = some (184 + 8 * i, 192 + 8 * i) ∧
    (∀ j : Nat, i < j → j < 100 →
      ∃ lo hi' : Nat, nx_superblock.elemRange "nx_fs_oid" j = some (lo, hi') ∧
        192 + 8 * i ≤ lo) ∧
    nx_superblock.elemRange "nx_fs_oid" 99 = some (976, 984) ∧
    nx_superblock.offsetof "nx_counters" = some 984 := by
  refine ⟨by decide, by decide, ?_, ?_, ?_, by decide, by decide⟩
  · intro k
    rw [nx_fs_oid_elemRange]
    by_cases hk : k < 100 <;> simp [hk]
  · rw [nx_fs_oid_elemRange, if_pos hi]
    have h : 184 + 8 * i + 8 = 192 + 8 * i := by omega
    rw [h]
  · intro j hij hj
    refine ⟨184 + 8 * j, 184 + 8 * j + 8, ?_, by omega⟩
    rw [nx_fs_oid_elemRange, if_pos hj]

/-- Witness for C4: slot 7, compared with slot 8. -/
theorem nx_fs_oid_slots_witness :
    7 < 100 ∧ nx_superblock.elemRange "nx_fs_oid" 7 = some (184 + 8 * 7, 192 + 8 * 7) ∧
    ∃ lo hi' : Nat, nx_superblock.elemRange "nx_fs_oid" 8 = some (lo, hi') ∧
      192 + 8 * 7 ≤ lo :=
  ⟨by decide, (nx_fs_oid_slots 7 (by decide)).2.2.2.1,
   (nx_fs_oid_slots 7 (by decide)).2.2.2.2.1 8 (by decide) (by decide)⟩

/-- C5: the container block size is bounded by `NX_MINIMUM_BLOCK_SIZE = 4096`
and `NX_MAXIMUM_BLOCK_SIZE = 65536`; both bounds are powers of two, and
`NX_MINIMUM_BLOCK_SIZE <= NX_DEFAULT_BLOCK_SIZE <= NX_MAXIMUM_BLOCK_SIZE` with
the default itself a power of two. -/
theorem nx_block_size_bounds :
    NX_MINIMUM_BLOCK_SIZE = 4096 ∧ NX_MAXIMUM_BLOCK_SIZE = 65536 ∧
    NX_MINIMUM_BLOCK_SIZE = 2 ^ 12 ∧ NX_MAXIMUM_BLOCK_SIZE = 2 ^ 16 ∧
    NX_MINIMUM_BLOCK_SIZE ≤ NX_DEFAULT_BLOCK_SIZE ∧
    NX_DEFAULT_BLOCK_SIZE ≤ NX_MAXIMUM_BLOCK_SIZE ∧
    NX_DEFAULT_BLOCK_SIZE = 2 ^ 12 := by
  and_intros
  all_goals decide

/-- C6: `sizeof(nx_superblock_t)` is 1408 bytes, which is at most
`NX_MINIMUM_BLOCK_SIZE`; hence for every legal block size `bs`
(`4096 <= bs <= 65536`) every member of the container superblock, and each of
the 100 volume slots, ends at or before byte `bs`, inside the block read at
address 0. -/
theorem nx_superblock_fits_block (bs : Nat) (hmin : NX_MINIMUM_BLOCK_SIZE ≤ bs)
    (_hmax : bs ≤ NX_MAXIMUM_BLOCK_SIZE) :
    nx_superblock_t.size = 1408 ∧ nx_superblock_t.size ≤ NX_MINIMUM_BLOCK_SIZE ∧
    nx_superblock_t.size ≤ bs ∧
    (∀ p ∈ nx_superblock.layout, p.2 + p.1.size ≤ bs) ∧
    (∀ i : Nat, i < NX_MAX_FILE_SYSTEMS →
      ∃ lo hi : Nat, nx_superblock.elemRange "nx_fs_oid" i = some (lo, hi) ∧
        lo < hi ∧ hi ≤ bs) := by
  have hsz : nx_superblock_t.size = 1408 := by decide
  have hmin' : 4096 ≤ bs := hmin
  refine ⟨hsz, by decide, by omega, ?_, ?_⟩
  · intro p hp
    have := nx_superblock_members_end p hp
    omega
  · intro i hi
    have hi' : i < 100 := hi
    refine ⟨184 + 8 * i, 184 + 8 * i + 8, ?_, by omega, by omega⟩
    rw [nx_fs_oid_elemRange, if_pos hi']

/-- Witness for C6: the default block size and the last volume slot. -/
theorem nx_superblock_fits_block_witness :
    NX_MINIMUM_BLOCK_SIZE ≤ 4096 ∧ 4096 ≤ NX_MAXIMUM_BLOCK_SIZE ∧
    nx_superblock_t.size ≤ 4096 ∧
    ∃ lo hi : Nat, nx_superblock.elemRange "nx_fs_oid" 99 = some (lo, hi) ∧
      lo < hi ∧ hi ≤ 4096 :=
  ⟨by decide, by decide,
   (nx_superblock_fits_block 4096 (by decide) (by decide)).2.2.1,
   (nx_superblock_fits_block 4096 (by decide) (by decide)).2.2.2.2 99 (by decide)⟩

/-- Counterexample to C7 as stated: `om_tree_oid` is not the single tree
reference of `omap_phys_t`.  The header declares two `oid_t` members there, and
the second one, `om_snapshot_tree_oid`, is a member of the struct at offset 56,
right after `om_tree_oid`, with its own tree type `om_snapshot_tree_type`. -/
theorem omap_phys_second_tree_reference :
    omap_phys_tree_refs.length = 2 ∧
    "om_snapshot_tree_oid" ∈ omap_phys_tree_refs ∧
    "om_snapshot_tree_oid" ≠ "om_tree_oid" ∧
    omap_phys.layout.find? (fun p => p.1.name == "om_snapshot_tree_oid") =
      some (fld oid_t "om_snapshot_tree_oid", 56) ∧
    omap_phys.offsetof "om_snapshot_tree_type" = some 44 ∧
    ¬ (∀ n ∈ omap_phys_tree_refs, n = "om_tree_oid") := by
  decide

/-- C7, amended: object-map records have fixed 16-byte shapes: `omap_key_t` is
(`ok_oid` at offset 0, `ok_xid` at offset 8) and `omap_val_t` is (`ov_flags` at
0, `ov_size` at 4, `ov_paddr` at 8), both without padding; the object map header
`omap_phys_t` is 88 bytes and holds two tree references, each an 8-byte object
id: `om_tree_oid` at offset 48 and `om_snapshot_tree_oid` at offset 56, every
member named in `omap_phys_tree_refs` being one of these two; and the deletion
marker `OMAP_VAL_DELETED` is bit 0 of `ov_flags`, disjoint from the other four
`OMAP_VAL_*` flags. -/
theorem omap_record_layout :
    omap_key_t.size = 16 ∧ omap_key.noPadding = true ∧
    omap_key.offsetof "ok_oid" = some 0 ∧ omap_key.memberSize "ok_oid" = some 8 ∧
    omap_key.offsetof "ok_xid" = some 8 ∧ omap_key.memberSize "ok_xid" = some 8 ∧
    omap_val_t.size = 16 ∧ omap_val.noPadding = true ∧
    omap_val.offsetof "ov_flags" = some 0 ∧ omap_val.memberSize "ov_flags" = some 4 ∧
    omap_val.offsetof "ov_size" = some 4 ∧ omap_val.memberSize "ov_size" = some 4 ∧
    omap_val.offsetof "ov_paddr" = some 8 ∧ omap_val.memberSize "ov_paddr" = some 8 ∧
    omap_phys_t.size = 88 ∧ omap_phys.noPadding = true ∧
    omap_phys.offsetof "om_tree_oid" = some 48 ∧
    omap_phys.memberSize "om_tree_oid" = some 8 ∧
    omap_phys.layout.find? (fun p => p.1.name == "om_tree_oid") =
      some (fld oid_t "om_tree_oid", 48) ∧
    omap_phys.offsetof "om_snapshot_tree_oid" = some 56 ∧
    omap_phys.memberSize "om_snapshot_tree_oid" = some 8 ∧
    omap_phys.layout.find? (fun p => p.1.name == "om_snapshot_tree_oid") =
      some (fld oid_t "om_snapshot_tree_oid", 56) ∧
    (∀ n ∈ omap_phys_tree_refs, n = "om_tree_oid" ∨ n = "om_snapshot_tree_oid") ∧
    (∀ n ∈ omap_phys_tree_refs, omap_phys.memberSize n = some oid_t.size) ∧
    OMAP_VAL_DELETED = 2 ^ 0 ∧
    (∀ f : Nat, f &&& OMAP_VAL_DELETED = f % 2) ∧
    OMAP_VAL_DELETED &&& OMAP_VAL_SAVED = 0 ∧
    OMAP_VAL_DELETED &&& OMAP_VAL_ENCRYPTED = 0 ∧
    OMAP_VAL_DELETED &&& OMAP_VAL_NOHEADER = 0 ∧
    OMAP_VAL_DELETED &&& OMAP_VAL_CRYPTO_GENERATION = 0 := by
  have hbit : ∀ f : Nat, f &&& OMAP_VAL_DELETED = f % 2 := fun f => Nat.and_one_is_mod f
  and_intros
  all_goals first
    | decide
    | exact hbit

/-- C8: the fixed part of a B-tree node `btree_node_phys_t` is exactly 56 bytes:
the 32-byte object header, then `btn_flags` (16-bit) at 32, `btn_level` (16-bit)
at 34, `btn_nkeys` (32-bit) at 36, and the four 4-byte `nloc_t` region
descriptors `btn_table_space` at 40, `btn_free_space` at 44, `btn_key_free_list`
at 48 and `btn_val_free_list` at 52, with the packed storage `btn_data` starting
at offset 56, which is a multiple of its 8-byte alignment, so no padding is
inserted. -/
theorem btree_node_phys_layout :
    btree_node_phys_t.size = 56 ∧ btree_node_phys.noPadding = true ∧
    btree_node_phys.offsetof "btn_o" = some 0 ∧
    btree_node_phys.memberSize "btn_o" = some 32 ∧
    btree_node_phys.offsetof "btn_flags" = some 32 ∧
    btree_node_phys.memberSize "btn_flags" = some 2 ∧
    btree_node_phys.offsetof "btn_level" = some 34 ∧
    btree_node_phys.memberSize "btn_level" = some 2 ∧
    btree_node_phys.offsetof "btn_nkeys" = some 36 ∧
    btree_node_phys.memberSize "btn_nkeys" = some 4 ∧
    nloc_t.size = 4 ∧
    btree_node_phys.offsetof "btn_table_space" = some 40 ∧
    btree_node_phys.memberSize "btn_table_space" = some 4 ∧
    btree_node_phys.offsetof "btn_free_space" = some 44 ∧
    btree_node_phys.memberSize "btn_free_space" = some 4 ∧
    btree_node_phys.offsetof "btn_key_free_list" = some 48 ∧
    btree_node_phys.memberSize "btn_key_free_list" = some 4 ∧
    btree_node_phys.offsetof "btn_val_free_list" = some 52 ∧
    btree_node_phys.memberSize "btn_val_free_list" = some 4 ∧
    btree_node_phys.offsetof "btn_data" = some 56 ∧
    btree_node_phys.layout.find? (fun p => p.1.name == "btn_data") =
      some (flex uint64_t "btn_data", 56) ∧
    uint64_t.align = 8 ∧ 56 % uint64_t.align = 0 := by
  and_intros
  all_goals decide

/-- C9: the two table-of-contents entry layouts have fixed sizes: `kvoff_t` is 4
bytes holding two 16-bit offsets (`k` at 0, `v` at 2) and `kvloc_t` is 8 bytes
holding two `nloc_t` pairs (`k` at 0, `v` at 4), each pair being (`off` at 0,
`len` at 2); so entry `i` of a table starting at byte `base` starts at byte
`base + 4*i` of a fixed-size table and at `base + 8*i` of a variable-size table;
and the selecting node flag `BTNODE_FIXED_KV_SIZE` is a single bit, distinct from
and disjoint with `BTNODE_ROOT` and `BTNODE_LEAF`. -/
theorem toc_entry_layout :
    kvoff_t.size = 4 ∧ kvoff.noPadding = true ∧
    kvoff.offsetof "k" = some 0 ∧ kvoff.memberSize "k" = some 2 ∧
    kvoff.offsetof "v" = some 2 ∧ kvoff.memberSize "v" = some 2 ∧
    kvloc_t.size = 8 ∧ kvloc.noPadding = true ∧
    kvloc.offsetof "k" = some 0 ∧ kvloc.memberSize "k" = some 4 ∧
    kvloc.offsetof "v" = some 4 ∧ kvloc.memberSize "v" = some 4 ∧
    nloc_t.size = 4 ∧ nloc.noPadding = true ∧
    nloc.offsetof "off" = some 0 ∧ nloc.memberSize "off" = some 2 ∧
    nloc.offsetof "len" = some 2 ∧ nloc.memberSize "len" = some 2 ∧
    (∀ base i : Nat, elemOffset kvoff_t base i = base + 4 * i) ∧
    (∀ base i : Nat, elemOffset kvloc_t base i = base + 8 * i) ∧
    (∀ i : Nat, elemOffset kvoff_t 0 i = 4 * i ∧ elemOffset kvloc_t 0 i = 8 * i) ∧
    BTNODE_FIXED_KV_SIZE = 2 ^ 2 ∧
    BTNODE_FIXED_KV_SIZE ≠ BTNODE_ROOT ∧ BTNODE_FIXED_KV_SIZE ≠ BTNODE_LEAF ∧
    BTNODE_FIXED_KV_SIZE &&& BTNODE_ROOT = 0 ∧ BTNODE_FIXED_KV_SIZE &&& BTNODE_LEAF = 0 := by
  have h4 : kvoff_t.size = 4 := by decide
  have h8 : kvloc_t.size = 8 := by decide
  have hoff : ∀ base i : Nat, elemOffset kvoff_t base i = base + 4 * i := by
    intro base i
    simp only [elemOffset, h4]
  have hloc : ∀ base i : Nat, elemOffset kvloc_t base i = base + 8 * i := by
    intro base i
    simp only [elemOffset, h8]
  have hzero : ∀ i : Nat, elemOffset kvoff_t 0 i = 4 * i ∧ elemOffset kvloc_t 0 i = 8 * i := by
    intro i
    rw [hoff, hloc, Nat.zero_add, Nat.zero_add]
    exact ⟨rfl, rfl⟩
  and_intros
  all_goals first
    | decide
    | exact hoff
    | exact hloc
    | exact hzero

/-- C10: a checkpoint-mapping block `checkpoint_map_phys` has a 40-byte fixed
part (object header, `cpm_flags` at offset 32, `cpm_count` at offset 36) followed
contiguously by 40-byte `checkpoint_mapping_t` records, so for every `i` mapping
`i` occupies bytes `[40 + 40*i, 80 + 40*i)`; within a mapping `cpm_type` is at 0,
`cpm_subtype` at 4, `cpm_size` at 8, `cpm_fs_oid` at 16, `cpm_oid` at 24 and
`cpm_paddr` at 32; the terminating flag `CHECKPOINT_MAP_LAST` is bit 0 of
`cpm_flags`; and mapping `i` lies wholly inside a 4096-byte block exactly when
`i < 101`, so such a block holds at most 101 whole mappings. -/
theorem checkpoint_map_layout :
    checkpoint_map_phys.sizeof = 40 ∧ checkpoint_map_phys.noPadding = true ∧
    checkpoint_map_phys.offsetof "cpm_o" = some 0 ∧
    checkpoint_map_phys.memberSize "cpm_o" = some 32 ∧
    checkpoint_map_phys.offsetof "cpm_flags" = some 32 ∧
    checkpoint_map_phys.offsetof "cpm_count" = some 36 ∧
    checkpoint_map_phys.offsetof "cpm_map" = some 40 ∧
    checkpoint_mapping_t.size = 40 ∧ checkpoint_mapping.noPadding = true ∧
    (∀ i : Nat, checkpoint_map_phys.elemRange "cpm_map" i =
      some (40 + 40 * i, 80 + 40 * i)) ∧
    checkpoint_mapping.offsetof "cpm_type" = some 0 ∧
    checkpoint_mapping.offsetof "cpm_subtype" = some 4 ∧
    checkpoint_mapping.offsetof "cpm_size" = some 8 ∧
    checkpoint_mapping.offsetof "cpm_fs_oid" = some 16 ∧
    checkpoint_mapping.offsetof "cpm_oid" = some 24 ∧
    checkpoint_mapping.offsetof "cpm_paddr" = some 32 ∧
    CHECKPOINT_MAP_LAST = 2 ^ 0 ∧
    (∀ f : Nat, f &&& CHECKPOINT_MAP_LAST = f % 2) ∧
    (∀ i : Nat, ∃ lo hi : Nat, checkpoint_map_phys.elemRange "cpm_map" i = some (lo, hi) ∧
      (hi ≤ 4096 ↔ i < 101)) ∧
    (4096 - checkpoint_map_phys.sizeof) / checkpoint_mapping_t.size = 101 := by
  have hrange : ∀ i : Nat, checkpoint_map_phys.elemRange "cpm_map" i =
      some (40 + 40 * i, 80 + 40 * i) := by
    intro i
    rw [cpm_map_elemRange]
    have h : 40 + 40 * i + 40 = 80 + 40 * i := by omega
    rw [h]
  have hbit : ∀ f : Nat, f &&& CHECKPOINT_MAP_LAST = f % 2 := fun f => Nat.and_one_is_mod f
  have hfit : ∀ i : Nat, ∃ lo hi : Nat,
      checkpoint_map_phys.elemRange "cpm_map" i = some (lo, hi) ∧ (hi ≤ 4096 ↔ i < 101) := by
    intro i
    refine ⟨40 + 40 * i, 40 + 40 * i + 40, cpm_map_elemRange i, ?_⟩
    omega
  and_intros
  all_goals first
    | decide
    | exact hrange
    | exact hbit
    | exact hfit

/-- C11: an index-node value `btn_index_node_val_t` is 72 bytes: the child
object id `binv_child_oid` at offset 0 (8 bytes) followed by a hash area of
`BTREE_NODE_HASH_SIZE_MAX = 64` bytes at offset 8; and that hash area is large
enough for every supported hash type: each of `APFS_HASH_CCSHA256_SIZE`,
`APFS_HASH_CCSHA512_256_SIZE`, `APFS_HASH_CCSHA384_SIZE` and
`APFS_HASH_CCSHA512_SIZE` is at most `APFS_HASH_MAX_SIZE`, which equals
`BTREE_NODE_HASH_SIZE_MAX`. -/
theorem btn_index_node_val_layout :
    btn_index_node_val_t.size = 72 ∧ btn_index_node_val.noPadding = true ∧
    btn_index_node_val.offsetof "binv_child_oid" = some 0 ∧
    btn_index_node_val.memberSize "binv_child_oid" = some 8 ∧
    btn_index_node_val.offsetof "binv_child_hash" = some 8 ∧
    btn_index_node_val.memberSize "binv_child_hash" = some BTREE_NODE_HASH_SIZE_MAX ∧
    BTREE_NODE_HASH_SIZE_MAX = 64 ∧
    APFS_HASH_CCSHA256_SIZE ≤ APFS_HASH_MAX_SIZE ∧
    APFS_HASH_CCSHA512_256_SIZE ≤ APFS_HASH_MAX_SIZE ∧
    APFS_HASH_CCSHA384_SIZE ≤ APFS_HASH_MAX_SIZE ∧
    APFS_HASH_CCSHA512_SIZE ≤ APFS_HASH_MAX_SIZE ∧
    APFS_HASH_MAX_SIZE = BTREE_NODE_HASH_SIZE_MAX := by
  and_intros
  all_goals decide

/-- C12: the volume superblock `struct apfs_superblock` is 1056 bytes and, with
the 20-byte packed, 2-aligned `wrapped_meta_crypto_state_t` embedded at offset
96, places `apfs_magic` at 32, `apfs_fs_index` at 36,
`apfs_incompatible_features` at 56, `apfs_root_tree_type` at 116,
`apfs_omap_oid` at 128, `apfs_root_tree_oid` at 136 and `apfs_volname` at 704;
the three 32-bit tree-type members after the crypto state end at byte 128, a
multiple of 8, so no padding precedes `apfs_omap_oid` (the struct has no padding
at all). -/
theorem apfs_superblock_layout :
    apfs_superblock.sizeof = 1056 ∧
    wrapped_meta_crypto_state_t = ⟨20, 2⟩ ∧ wrapped_meta_crypto_state.packed = true ∧
    wrapped_meta_crypto_state.aligned = 2 ∧
    apfs_superblock.offsetof "apfs_meta_crypto" = some 96 ∧
    apfs_superblock.memberSize "apfs_meta_crypto" = some 20 ∧
    apfs_superblock.offsetof "apfs_magic" = some 32 ∧
    apfs_superblock.offsetof "apfs_fs_index" = some 36 ∧
    apfs_superblock.offsetof "apfs_incompatible_features" = some 56 ∧
    apfs_superblock.offsetof "apfs_root_tree_type" = some 116 ∧
    apfs_superblock.memberSize "apfs_root_tree_type" = some 4 ∧
    apfs_superblock.offsetof "apfs_extentref_tree_type" = some 120 ∧
    apfs_superblock.memberSize "apfs_extentref_tree_type" = some 4 ∧
    apfs_superblock.offsetof "apfs_snap_meta_tree_type" = some 124 ∧
    apfs_superblock.memberSize "apfs_snap_meta_tree_type" = some 4 ∧
    apfs_superblock.offsetof "apfs_omap_oid" = some 128 ∧ 128 % oid_t.align = 0 ∧
    apfs_superblock.offsetof "apfs_root_tree_oid" = some 136 ∧
    apfs_superblock.offsetof "apfs_volname" = some 704 ∧
    apfs_superblock.noPadding = true := by
  and_intros
  all_goals decide

/-- C13: the superblock magic tags, evaluated as big-endian-packed
multi-character constants, are `NX_MAGIC = 0x4253584E` and
`APFS_MAGIC = 0x42535041`; stored as little-endian 32-bit fields they are the
byte strings "NXSB" and "APSB"; the two magics are distinct, and both magic
members are the four bytes at offset 32 of their superblock, so a block holding
`NX_MAGIC` there does not hold `APFS_MAGIC`. -/
theorem superblock_magics :
    NX_MAGIC = 0x4253584E ∧ APFS_MAGIC = 0x42535041 ∧
    le32 NX_MAGIC = ['N', 'X', 'S', 'B'].map Char.toNat ∧
    le32 APFS_MAGIC = ['A', 'P', 'S', 'B'].map Char.toNat ∧
    NX_MAGIC ≠ APFS_MAGIC ∧ le32 NX_MAGIC ≠ le32 APFS_MAGIC ∧
    nx_superblock.offsetof "nx_magic" = some 32 ∧
    nx_superblock.memberSize "nx_magic" = some 4 ∧
    apfs_superblock.offsetof "apfs_magic" = some 32 ∧
    apfs_superblock.memberSize "apfs_magic" = some 4 := by
  and_intros
  all_goals decide

/-- C14: for every 64-bit container feature word `f`, `f` has no bit outside
`NX_SUPPORTED_INCOMPAT_MASK` (`f & ~mask` is zero) if and only if its set bits
are a subset of {`NX_INCOMPAT_VERSION2` (bit 1), `NX_INCOMPAT_FUSION` (bit 8)};
the mask is `0x102`; `NX_INCOMPAT_VERSION1` lies outside it, so every `f` with
that bit set has a bit outside the mask.  For volumes,
`APFS_SUPPORTED_INCOMPAT_MASK` is the OR of the seven `APFS_INCOMPAT_*` flags,
which are bits 0 to 6, so it is `0x7f` and `f` has a bit outside it exactly when
a bit at or above bit 7, which no flag defines, is set. -/
theorem incompat_masks (f : Nat) (hf : f < 2 ^ 64) :
    (f &&& not64 NX_SUPPORTED_INCOMPAT_MASK = 0 ↔
      ∀ i : Nat, f.testBit i = true → i = 1 ∨ i = 8) ∧
    NX_INCOMPAT_VERSION2 = 2 ^ 1 ∧ NX_INCOMPAT_FUSION = 2 ^ 8 ∧
    NX_SUPPORTED_INCOMPAT_MASK = 0x102 ∧
    NX_INCOMPAT_VERSION1 &&& NX_SUPPORTED_INCOMPAT_MASK = 0 ∧
    (f &&& NX_INCOMPAT_VERSION1 ≠ 0 → f &&& not64 NX_SUPPORTED_INCOMPAT_MASK ≠ 0) ∧
    [APFS_INCOMPAT_CASE_INSENSITIVE, APFS_INCOMPAT_DATALESS_SNAPS,
      APFS_INCOMPAT_ENC_ROLLED, APFS_INCOMPAT_NORMALIZATION_INSENSITIVE,
      APFS_INCOMPAT_INCOMPLETE_RESTORE, APFS_INCOMPAT_SEALED_VOLUME,
      APFS_INCOMPAT_RESERVED_40] = (List.range 7).map (fun j => 2 ^ j) ∧
    APFS_SUPPORTED_INCOMPAT_MASK = 0x7f ∧
    (f &&& not64 APFS_SUPPORTED_INCOMPAT_MASK ≠ 0 ↔ 2 ^ 7 ≤ f) := by
  have hnx := nx_no_unsupported_iff f hf
  have hv1 : f &&& NX_INCOMPAT_VERSION1 ≠ 0 →
      f &&& not64 NX_SUPPORTED_INCOMPAT_MASK ≠ 0 := by
    intro h1 h0
    have hbit : f.testBit 0 = true := by
      rw [Nat.testBit_zero]
      have hmod : f &&& NX_INCOMPAT_VERSION1 = f % 2 := Nat.and_one_is_mod f
      rw [hmod] at h1
      have : f % 2 = 1 := by omega
      simp [this]
    rcases hnx.mp h0 0 hbit with h | h <;> omega
  have hvol : f &&& not64 APFS_SUPPORTED_INCOMPAT_MASK ≠ 0 ↔ 2 ^ 7 ≤ f := by
    have hm : not64 APFS_SUPPORTED_INCOMPAT_MASK = (2 ^ 57 - 1) <<< 7 := by decide
    rw [hm, and_shiftLeft_ones, Nat.shiftLeft_eq, Nat.shiftRight_eq_div_pow]
    have h64 : f < 18446744073709551616 := hf
    norm_num
    omega
  and_intros
  all_goals first
    | decide
    | exact hnx.mp
    | exact hnx.mpr
    | exact hv1
    | exact hvol.mp
    | exact hvol.mpr
    | exact hvol
    | exact hnx

/-- Witness for C14: the feature word `0x103` (version 1, version 2 and
Fusion), which has bit 0 outside the supported mask. -/
theorem incompat_masks_witness :
    0x103 < 2 ^ 64 ∧ 0x103 &&& NX_INCOMPAT_VERSION1 ≠ 0 ∧
    0x103 &&& not64 NX_SUPPORTED_INCOMPAT_MASK ≠ 0 :=
  ⟨by decide, by decide,
   (incompat_masks 0x103 (by decide)).2.2.2.2.2.1 (by decide)⟩

/-- Counterexample to C15 as stated: the 32-bit word `0xc0000000` has both
storage bits set, and its storage class `t & OBJ_STORAGETYPE_MASK` is none of
`OBJ_VIRTUAL`, `OBJ_EPHEMERAL`, `OBJ_PHYSICAL`. -/
theorem storage_class_unnamed :
    0xc0000000 < 2 ^ 32 ∧
    ¬ (0xc0000000 &&& OBJ_STORAGETYPE_MASK = OBJ_VIRTUAL ∨
       0xc0000000 &&& OBJ_STORAGETYPE_MASK = OBJ_EPHEMERAL ∨
       0xc0000000 &&& OBJ_STORAGETYPE_MASK = OBJ_PHYSICAL) := by
  decide

/-- C15, amended: for every 32-bit `o_type` value `t`, the storage class
`t & OBJ_STORAGETYPE_MASK` is exactly one of `OBJ_VIRTUAL`, `OBJ_EPHEMERAL`,
`OBJ_PHYSICAL` or the unnamed value `OBJ_EPHEMERAL | OBJ_PHYSICAL`
(`0xc0000000`, the mask itself); the three named constants are pairwise
distinct, and the unnamed value differs from each of them. -/
theorem storage_class_values (t : Nat) (_ht : t < 2 ^ 32) :
    (t &&& OBJ_STORAGETYPE_MASK = OBJ_VIRTUAL ∨
     t &&& OBJ_STORAGETYPE_MASK = OBJ_EPHEMERAL ∨
     t &&& OBJ_STORAGETYPE_MASK = OBJ_PHYSICAL ∨
     t &&& OBJ_STORAGETYPE_MASK = OBJ_EPHEMERAL ||| OBJ_PHYSICAL) ∧
    OBJ_VIRTUAL ≠ OBJ_EPHEMERAL ∧ OBJ_VIRTUAL ≠ OBJ_PHYSICAL ∧
    OBJ_EPHEMERAL ≠ OBJ_PHYSICAL ∧
    OBJ_EPHEMERAL ||| OBJ_PHYSICAL = OBJ_STORAGETYPE_MASK ∧
    OBJ_EPHEMERAL ||| OBJ_PHYSICAL = 0xc0000000 ∧
    OBJ_EPHEMERAL ||| OBJ_PHYSICAL ≠ OBJ_VIRTUAL ∧
    OBJ_EPHEMERAL ||| OBJ_PHYSICAL ≠ OBJ_EPHEMERAL ∧
    OBJ_EPHEMERAL ||| OBJ_PHYSICAL ≠ OBJ_PHYSICAL := by
  have hvals : t &&& OBJ_STORAGETYPE_MASK = OBJ_VIRTUAL ∨
      t &&& OBJ_STORAGETYPE_MASK = OBJ_EPHEMERAL ∨
      t &&& OBJ_STORAGETYPE_MASK = OBJ_PHYSICAL ∨
      t &&& OBJ_STORAGETYPE_MASK = OBJ_EPHEMERAL ||| OBJ_PHYSICAL := by
    have hm : OBJ_STORAGETYPE_MASK = (2 ^ 2 - 1) <<< 30 := by decide
    rw [hm, and_shiftLeft_ones]
    have hr : (t >>> 30) % 2 ^ 2 < 4 := Nat.mod_lt _ (by decide)
    generalize (t >>> 30) % 2 ^ 2 = r at hr
    interval_cases r
    · exact Or.inl (by decide)
    · exact Or.inr (Or.inr (Or.inl (by decide)))
    · exact Or.inr (Or.inl (by decide))
    · exact Or.inr (Or.inr (Or.inr (by decide)))
  and_intros
  all_goals first
    | decide
    | exact hvals

/-- Witness for C15, amended: the word `0x4000000b` is a physical object. -/
theorem storage_class_values_witness :
    0x4000000b < 2 ^ 32 ∧
    (0x4000000b &&& OBJ_STORAGETYPE_MASK = OBJ_VIRTUAL ∨
     0x4000000b &&& OBJ_STORAGETYPE_MASK = OBJ_EPHEMERAL ∨
     0x4000000b &&& OBJ_STORAGETYPE_MASK = OBJ_PHYSICAL ∨
     0x4000000b &&& OBJ_STORAGETYPE_MASK = OBJ_EPHEMERAL ||| OBJ_PHYSICAL) :=
  ⟨by decide, (storage_class_values 0x4000000b (by decide)).1⟩

/-- Counterexample to C16 as stated: `OBJECT_TYPE_CONTAINER_KEYBAG`, the
four-character constant `'keys'` (`0x6b657973`), is one of the header's
`OBJECT_TYPE_*` constants, yet masking it with `OBJECT_TYPE_MASK` does not
return it and it has bits inside `OBJECT_TYPE_FLAGS_MASK`. -/
theorem keybag_type_outside_low16 :
    OBJECT_TYPE_CONTAINER_KEYBAG ∈ objectTypes ∧
    OBJECT_TYPE_CONTAINER_KEYBAG = 0x6b657973 ∧
    OBJECT_TYPE_CONTAINER_KEYBAG &&& OBJECT_TYPE_MASK ≠ OBJECT_TYPE_CONTAINER_KEYBAG ∧
    OBJECT_TYPE_CONTAINER_KEYBAG &&& OBJECT_TYPE_FLAGS_MASK ≠ 0 := by
  decide

/-- C16, amended: every object-kind constant the header defines by a numeric
literal (`OBJECT_TYPE_NX_SUPERBLOCK` to `OBJECT_TYPE_RESERVED_20`,
`OBJECT_TYPE_INVALID` and `OBJECT_TYPE_TEST`) lies in the low 16 bits of the
type word: `c & OBJECT_TYPE_MASK = c` and `c & OBJECT_TYPE_FLAGS_MASK = 0`, so
OR-ing `c` with a storage class and decoding with the masks returns `c` and that
storage class.  The three keybag constants are four-character codes with bits in
the high half, so the mask does not return them.  All the constants, keybag
ones included, are pairwise distinct. -/
theorem object_kind_constants (c s : Nat) (hc : c ∈ numericObjectTypes)
    (hs : s ∈ storageClasses) :
    c &&& OBJECT_TYPE_MASK = c ∧ c &&& OBJECT_TYPE_FLAGS_MASK = 0 ∧
    (c ||| s) &&& OBJECT_TYPE_MASK = c ∧
    (c ||| s) &&& OBJ_STORAGETYPE_MASK = s ∧
    (∀ k ∈ keybagObjectTypes,
      k &&& OBJECT_TYPE_MASK ≠ k ∧ k &&& OBJECT_TYPE_FLAGS_MASK ≠ 0) ∧
    objectTypes.Nodup := by
  have hall : ∀ c ∈ numericObjectTypes, ∀ s ∈ storageClasses,
      c &&& OBJECT_TYPE_MASK = c ∧ c &&& OBJECT_TYPE_FLAGS_MASK = 0 ∧
      (c ||| s) &&& OBJECT_TYPE_MASK = c ∧
      (c ||| s) &&& OBJ_STORAGETYPE_MASK = s := by decide
  obtain ⟨h1, h2, h3, h4⟩ := hall c hc s hs
  exact ⟨h1, h2, h3, h4, by decide, by decide⟩

/-- Witness for C16, amended: an ephemeral space manager,
`OBJECT_TYPE_SPACEMAN | OBJ_EPHEMERAL`. -/
theorem object_kind_constants_witness :
    OBJECT_TYPE_SPACEMAN ∈ numericObjectTypes ∧ OBJ_EPHEMERAL ∈ storageClasses ∧
    (OBJECT_TYPE_SPACEMAN ||| OBJ_EPHEMERAL) &&& OBJECT_TYPE_MASK = OBJECT_TYPE_SPACEMAN ∧
    (OBJECT_TYPE_SPACEMAN ||| OBJ_EPHEMERAL) &&& OBJ_STORAGETYPE_MASK = OBJ_EPHEMERAL :=
  have h := object_kind_constants OBJECT_TYPE_SPACEMAN OBJ_EPHEMERAL (by decide) (by decide)
  ⟨by decide, by decide, h.2.2.1, h.2.2.2.1⟩

/-- C17, evaluated on the header: `J_DREC_HASH_MASK` is `0xfffff400`, which
lacks bit 11.  The two masks are disjoint, but their union is `0xfffff7ff`, not
all 32 bits, and the hash mask is not the 22 bits at and above
`J_DREC_HASH_SHIFT`; for the length 0 and the hash 2 the packed word is `0x800`,
from which the masks recover the length 0 and the hash 0. -/
theorem j_drec_hash_mask_drops_bit :
    J_DREC_LEN_MASK &&& J_DREC_HASH_MASK = 0 ∧
    J_DREC_LEN_MASK ||| J_DREC_HASH_MASK = 0xfffff7ff ∧
    J_DREC_LEN_MASK ||| J_DREC_HASH_MASK ≠ 0xffffffff ∧
    (2 ^ 22 - 1) <<< J_DREC_HASH_SHIFT = 0xfffffc00 ∧
    J_DREC_HASH_MASK ≠ (2 ^ 22 - 1) <<< J_DREC_HASH_SHIFT ∧
    0 ≤ 0x3ff ∧ 2 < 2 ^ 22 ∧
    (2 <<< J_DREC_HASH_SHIFT) ||| 0 = 0x800 ∧
    ((2 <<< J_DREC_HASH_SHIFT) ||| 0) &&& J_DREC_LEN_MASK = 0 ∧
    (((2 <<< J_DREC_HASH_SHIFT) ||| 0) &&& J_DREC_HASH_MASK) >>> J_DREC_HASH_SHIFT = 0 ∧
    (((2 <<< J_DREC_HASH_SHIFT) ||| 0) &&& J_DREC_HASH_MASK) >>> J_DREC_HASH_SHIFT ≠ 2 := by
  decide

/-- C18: for every power-of-two block size `bs` with `4096 <= bs <= 65536`,
`FUSION_TIER2_DEVICE_BLOCK_ADDR(bs) * bs = FUSION_TIER2_DEVICE_BYTE_ADDR`
(`2^62`), and for every block number `blkno` below
`FUSION_TIER2_DEVICE_BLOCK_ADDR(bs)`: `FUSION_BLKNO(false, blkno, bs) = blkno`,
`FUSION_BLKNO(true, blkno, bs) = FUSION_TIER2_DEVICE_BLOCK_ADDR(bs) + blkno`,
and the pair (tier flag, `blkno`) is recovered from the result by testing and
then clearing the marker bit, so the encoding is injective. -/
theorem fusion_blkno_roundtrip (bs k : Nat) (hk : bs = 2 ^ k)
    (hmin : NX_MINIMUM_BLOCK_SIZE ≤ bs) (hmax : bs ≤ NX_MAXIMUM_BLOCK_SIZE) :
    FUSION_TIER2_DEVICE_BLOCK_ADDR bs * bs = FUSION_TIER2_DEVICE_BYTE_ADDR ∧
    FUSION_TIER2_DEVICE_BYTE_ADDR = 2 ^ 62 ∧
    ∀ blkno : Nat, blkno < FUSION_TIER2_DEVICE_BLOCK_ADDR bs →
      FUSION_BLKNO false blkno bs = blkno ∧
      FUSION_BLKNO true blkno bs = FUSION_TIER2_DEVICE_BLOCK_ADDR bs + blkno ∧
      (∀ tier : Bool,
        (FUSION_BLKNO tier blkno bs &&& FUSION_TIER2_DEVICE_BLOCK_ADDR bs ≠ 0 ↔
          tier = true) ∧
        FUSION_BLKNO tier blkno bs &&& not64 (FUSION_TIER2_DEVICE_BLOCK_ADDR bs) = blkno) ∧
      (∀ (tier tier' : Bool) (blkno' : Nat), blkno' < FUSION_TIER2_DEVICE_BLOCK_ADDR bs →
        FUSION_BLKNO tier blkno bs = FUSION_BLKNO tier' blkno' bs →
        tier = tier' ∧ blkno = blkno') := by
  obtain ⟨m, hm, hBA, hmul⟩ := fusion_block_addr_pow hk hmin hmax
  have hbyte : FUSION_TIER2_DEVICE_BYTE_ADDR = 2 ^ 62 := by decide
  refine ⟨?_, hbyte, ?_⟩
  · rw [hBA, hbyte]
    exact hmul
  · intro blkno hb
    obtain ⟨hfalse, htrue, hrec⟩ := fusion_blkno_of_marker hm hBA blkno hb
    refine ⟨hfalse, htrue, hrec, ?_⟩
    intro tier tier' blkno' hb' heq
    obtain ⟨_, _, hrec'⟩ := fusion_blkno_of_marker hm hBA blkno' hb'
    have htest := (hrec tier).1
    have htest' := (hrec' tier').1
    have hclear := (hrec tier).2
    have hclear' := (hrec' tier').2
    rw [heq] at htest hclear
    constructor
    · cases tier <;> cases tier' <;> simp_all
    · rw [← hclear, hclear']

/-- Witness for C18: block size 4096 and block number 5 on the tier-2 device. -/
theorem fusion_blkno_roundtrip_witness :
    4096 = 2 ^ 12 ∧ NX_MINIMUM_BLOCK_SIZE ≤ 4096 ∧ 4096 ≤ NX_MAXIMUM_BLOCK_SIZE ∧
    5 < FUSION_TIER2_DEVICE_BLOCK_ADDR 4096 ∧
    FUSION_TIER2_DEVICE_BLOCK_ADDR 4096 * 4096 = FUSION_TIER2_DEVICE_BYTE_ADDR ∧
    FUSION_BLKNO true 5 4096 = FUSION_TIER2_DEVICE_BLOCK_ADDR 4096 + 5 :=
  have h := fusion_blkno_roundtrip 4096 12 (by decide) (by decide) (by decide)
  ⟨by decide, by decide, by decide, by decide, h.1, (h.2.2 5 (by decide)).2.1⟩

/-- C19: the record key header `j_key_t.obj_id_and_type` (one 64-bit member)
packs a 60-bit object id and a 4-bit record type losslessly: `OBJ_ID_MASK` and
`OBJ_TYPE_MASK` are disjoint and cover all 64 bits,
`OBJ_TYPE_MASK = 0xf << OBJ_TYPE_SHIFT`, every `j_obj_types` enumerator is at
most `APFS_TYPE_MAX = 15`, every type `ty <= 15` fits in the type field, and for
every `id <= OBJ_ID_MASK` and `ty <= 15` the word
`v = (ty << OBJ_TYPE_SHIFT) | id` is a 64-bit value with
`v & OBJ_ID_MASK = id` and `(v & OBJ_TYPE_MASK) >> OBJ_TYPE_SHIFT = ty`. -/
theorem j_key_packing (id ty : Nat) (hid : id ≤ OBJ_ID_MASK) (hty : ty ≤ 15) :
    j_key_t.size = 8 ∧ j_key.offsetof "obj_id_and_type" = some 0 ∧
    OBJ_ID_MASK &&& OBJ_TYPE_MASK = 0 ∧
    OBJ_ID_MASK ||| OBJ_TYPE_MASK = 0xffffffffffffffff ∧
    OBJ_ID_MASK = 2 ^ 60 - 1 ∧
    OBJ_TYPE_MASK = 0xf <<< OBJ_TYPE_SHIFT ∧
    APFS_TYPE_MAX = 15 ∧
    (∀ v ∈ j_obj_types, v ≤ APFS_TYPE_MAX) ∧
    (ty <<< OBJ_TYPE_SHIFT) &&& OBJ_TYPE_MASK = ty <<< OBJ_TYPE_SHIFT ∧
    (ty <<< OBJ_TYPE_SHIFT) ||| id < 2 ^ 64 ∧
    ((ty <<< OBJ_TYPE_SHIFT) ||| id) &&& OBJ_ID_MASK = id ∧
    (((ty <<< OBJ_TYPE_SHIFT) ||| id) &&& OBJ_TYPE_MASK) >>> OBJ_TYPE_SHIFT = ty := by
  have hidm : OBJ_ID_MASK = 2 ^ 60 - 1 := by decide
  have htym : OBJ_TYPE_MASK = (2 ^ 4 - 1) <<< 60 := by decide
  have hid' : id < 2 ^ 60 := by
    rw [hidm] at hid
    exact Nat.lt_of_le_of_lt hid (by decide)
  have hty' : ty % 2 ^ 4 = ty := Nat.mod_eq_of_lt (Nat.lt_succ_of_le hty)
  have hv : (ty <<< OBJ_TYPE_SHIFT) ||| id = 2 ^ 60 * ty + id := by
    have h60 : OBJ_TYPE_SHIFT = 60 := rfl
    rw [Nat.mul_add_lt_is_or hid' ty, Nat.shiftLeft_eq, Nat.mul_comm, h60]
  have hfit : (ty <<< OBJ_TYPE_SHIFT) &&& OBJ_TYPE_MASK = ty <<< OBJ_TYPE_SHIFT := by
    have h60 : OBJ_TYPE_SHIFT = 60 := rfl
    rw [htym, and_shiftLeft_ones, h60, Nat.shiftLeft_shiftRight, hty']
  have hlt : (ty <<< OBJ_TYPE_SHIFT) ||| id < 2 ^ 64 := by
    rw [hv]
    have h60 : (2 : Nat) ^ 60 = 1152921504606846976 := by norm_num
    have h64 : (2 : Nat) ^ 64 = 18446744073709551616 := by norm_num
    rw [h60] at hid' ⊢
    rw [h64]
    omega
  have hgetid : ((ty <<< OBJ_TYPE_SHIFT) ||| id) &&& OBJ_ID_MASK = id := by
    rw [hv, hidm, Nat.and_pow_two_sub_one_eq_mod, Nat.mul_add_mod, Nat.mod_eq_of_lt hid']
  have hgetty :
      (((ty <<< OBJ_TYPE_SHIFT) ||| id) &&& OBJ_TYPE_MASK) >>> OBJ_TYPE_SHIFT = ty := by
    have h60 : OBJ_TYPE_SHIFT = 60 := rfl
    rw [hv, htym, and_shiftLeft_ones, h60, Nat.shiftLeft_shiftRight,
      Nat.shiftRight_eq_div_pow, Nat.mul_add_div (Nat.two_pow_pos 60),
      Nat.div_eq_of_lt hid', Nat.add_zero, hty']
  have henum : ∀ v ∈ j_obj_types, v ≤ APFS_TYPE_MAX := by decide
  exact ⟨by decide, by decide, by decide, by decide, hidm, by decide, rfl, henum,
    hfit, hlt, hgetid, hgetty⟩

/-- Witness for C19: an inode record (`APFS_TYPE_INODE = 3`) of object 1234. -/
theorem j_key_packing_witness :
    1234 ≤ OBJ_ID_MASK ∧ 3 ≤ 15 ∧
    ((3 <<< OBJ_TYPE_SHIFT) ||| 1234) &&& OBJ_ID_MASK = 1234 ∧
    (((3 <<< OBJ_TYPE_SHIFT) ||| 1234) &&& OBJ_TYPE_MASK) >>> OBJ_TYPE_SHIFT = 3 :=
  have h := j_key_packing 1234 3 (by decide) (by decide)
  ⟨by decide, by decide, h.2.2.2.2.2.2.2.2.2.2.1, h.2.2.2.2.2.2.2.2.2.2.2⟩

/-- C20, evaluated on the header: of the 84 declarations
`typedef struct tag name;`, 80 name the struct defined directly above them and
four do not.  Three of the four name a tag no struct of the header carries, so
`j_inode_key_t`, `j_file_info_key_t` and `j_file_info_val_t` are incomplete
types; the fourth makes `er_state_phys_v1_t` stand for `struct er_state_phys`,
which has no member `ersb_fext_pbn` or `ersb_checksum_count` and has
`ersb_progress` at offset 72.  The structs defined above those declarations have
the layout the claim gives: `ersb_fext_pbn` at 72, `ersb_progress` at 88 and
`ersb_checksum_count` at 112 in `struct er_state_phys_v1`, and sizes 8, 16 and 3
for `struct j_inode_key`, `struct j_file_info_key` and `struct j_file_info_val`. -/
theorem typedef_tag_mismatches :
    structTypedefs.length = 84 ∧
    (structTypedefs.filter (fun d => d.tag == d.above)).length = 80 ∧
    structTypedefs.filter (fun d => d.tag != d.above) = [
      StructTypedef.mk "j_inode_key" "j_inode_key_t" "j_inode_key_t",
      StructTypedef.mk "j_file_info_key" "j_key_t" "j_file_info_key_t",
      StructTypedef.mk "j_file_info_val" "j_file_data_hash_val_t" "j_file_info_val_t",
      StructTypedef.mk "er_state_phys_v1" "er_state_phys" "er_state_phys_v1_t"] ∧
    typedefTarget "j_inode_key_t" = none ∧
    typedefTarget "j_file_info_key_t" = none ∧
    typedefTarget "j_file_info_val_t" = none ∧
    typedefTarget "er_state_phys_v1_t" = some "er_state_phys" ∧
    typedefTarget "er_state_phys_t" = some "er_state_phys" ∧
    er_state_phys.offsetof "ersb_fext_pbn" = none ∧
    er_state_phys.offsetof "ersb_progress" = some 72 ∧
    er_state_phys.offsetof "ersb_checksum_count" = none ∧
    er_state_phys_v1.offsetof "ersb_fext_pbn" = some 72 ∧
    er_state_phys_v1.offsetof "ersb_progress" = some 88 ∧
    er_state_phys_v1.offsetof "ersb_checksum_count" = some 112 ∧
    j_inode_key.sizeof = 8 ∧ j_file_info_key.sizeof = 16 ∧ j_file_info_val.sizeof = 3 := by
  and_intros
  all_goals decide

end Apfs
